/-
Verification of the APSCA requirements-tracking repository's mutation API
(scripts/mutate.py) and validator (scripts/validate.py).

The Python code is shallowly embedded: JSON records become Lean structures
(fields that the code treats as always-present are plain fields, nullable or
optional ones are `Option`), each mutation operation becomes a pure function
`payload → timestamp → Store → MResult × Store` (the Python `now_iso()` value
is passed in as the `timestamp` argument, and the whole-file rewrite that
Python performs with `save_json` becomes the returned `Store`), and the
validator becomes a pure function from the loaded collections to its list of
accumulated error strings.
-/
import Mathlib

namespace APSCA

/-! ## Digit and identifier machinery

`generate_id` in mutate.py formats the next sequential number with
`f"{max_num + 1:03d}"` and parses existing IDs with the regex
`^{prefix}-(\d+)$`.  We model decimal formatting and parsing directly on
`List Char`. -/

/-- The decimal digit character for `n < 10` (mirrors Python's `str` digits). -/
def digitChar (n : Nat) : Char := Char.ofNat (48 + n)

/-- Fuel-driven decimal rendering; `fuel` bounds the recursion depth so the
definition is structurally recursive (and hence kernel-reducible). -/
def natDigitsAux : Nat → Nat → List Char
  | 0, _ => []
  | fuel + 1, n =>
    if n < 10 then [digitChar n]
    else natDigitsAux fuel (n / 10) ++ [digitChar (n % 10)]

/-- Decimal rendering of a natural number, as Python's `str(n)` produces. -/
def natDigits (n : Nat) : List Char := natDigitsAux (n + 1) n

/-- Value of a digit string (the semantics of `int(...)` on a digit match). -/
def digitsToNat (ds : List Char) : Nat :=
  ds.foldl (fun a c => 10 * a + (c.toNat - 48)) 0

/-- Python's `f"{n:03d}"` zero-pads the rendered digits to width 3. -/
def pad3 (ds : List Char) : List Char :=
  if ds.length ≥ 3 then ds else List.replicate (3 - ds.length) '0' ++ ds

/-- Strip an expected leading character sequence, returning the remainder. -/
def dropPfx : List Char → List Char → Option (List Char)
  | [], rest => some rest
  | _ :: _, [] => none
  | p :: ps, c :: cs => if c = p then dropPfx ps cs else none

/-- Semantics of matching `^{prefix}-(\d+)$` against `rid` and taking the
captured number, as `generate_id` does. -/
def parseSeqId (pfx : String) (rid : String) : Option Nat :=
  match dropPfx (pfx.toList ++ ['-']) rid.toList with
  | none => none
  | some rest =>
    if rest ≠ [] ∧ rest.all Char.isDigit then some (digitsToNat rest) else none

/-! ### Round-trip lemmas for the digit machinery -/

theorem digitsToNat_append_singleton (xs : List Char) (c : Char) :
    digitsToNat (xs ++ [c]) = 10 * digitsToNat xs + (c.toNat - 48) := by
  simp [digitsToNat, List.foldl_append]

theorem digitChar_toNat {n : Nat} (h : n < 10) : (digitChar n).toNat = 48 + n := by
  interval_cases n <;> decide

theorem digitChar_isDigit {n : Nat} (h : n < 10) : (digitChar n).isDigit = true := by
  interval_cases n <;> decide

theorem natDigitsAux_spec : ∀ fuel n, n < fuel →
    digitsToNat (natDigitsAux fuel n) = n ∧
    (natDigitsAux fuel n).all Char.isDigit = true ∧
    natDigitsAux fuel n ≠ [] := by
  intro fuel
  induction fuel with
  | zero => intro n h; omega
  | succ f ih =>
    intro n h
    by_cases h10 : n < 10
    · simp only [natDigitsAux, if_pos h10]
      refine ⟨?_, ?_, by simp⟩
      · simp [digitsToNat, digitChar_toNat h10]
      · simp [digitChar_isDigit h10]
    · have hdiv : n / 10 < f := by omega
      have ⟨ih1, ih2, ih3⟩ := ih (n / 10) hdiv
      simp only [natDigitsAux, if_neg h10]
      refine ⟨?_, ?_, by simp⟩
      · rw [digitsToNat_append_singleton, ih1, digitChar_toNat (Nat.mod_lt n (by omega))]
        omega
      · simp only [List.all_append, ih2, Bool.true_and, List.all_cons, List.all_nil,
          Bool.and_true]
        exact digitChar_isDigit (Nat.mod_lt n (by omega))

theorem digitsToNat_natDigits (n : Nat) : digitsToNat (natDigits n) = n :=
  (natDigitsAux_spec (n + 1) n (Nat.lt_succ_self n)).1

theorem natDigits_all_digit (n : Nat) : (natDigits n).all Char.isDigit = true :=
  (natDigitsAux_spec (n + 1) n (Nat.lt_succ_self n)).2.1

theorem natDigits_ne_nil (n : Nat) : natDigits n ≠ [] :=
  (natDigitsAux_spec (n + 1) n (Nat.lt_succ_self n)).2.2

theorem digitsToNat_replicate_zero (k : Nat) (ds : List Char) :
    digitsToNat (List.replicate k '0' ++ ds) = digitsToNat ds := by
  induction k with
  | zero => simp
  | succ m ih =>
    simp only [List.replicate_succ, List.cons_append]
    show (List.replicate m '0' ++ ds).foldl _ (10 * 0 + ('0'.toNat - 48)) = _
    simpa [digitsToNat] using ih

theorem digitsToNat_pad3 (ds : List Char) : digitsToNat (pad3 ds) = digitsToNat ds := by
  unfold pad3
  split
  · rfl
  · exact digitsToNat_replicate_zero _ ds

theorem pad3_all_digit {ds : List Char} (h : ds.all Char.isDigit = true) :
    (pad3 ds).all Char.isDigit = true := by
  unfold pad3
  split
  · exact h
  · simp only [List.all_append, h, Bool.and_true]
    simp only [List.all_eq_true]
    intro c hc
    rw [List.eq_of_mem_replicate hc]
    decide

theorem pad3_ne_nil {ds : List Char} (h : ds ≠ []) : pad3 ds ≠ [] := by
  unfold pad3
  split
  · exact h
  · simp only [ne_eq, List.append_eq_nil]
    rintro ⟨-, h2⟩
    exact h h2

theorem dropPfx_append (p rest : List Char) : dropPfx p (p ++ rest) = some rest := by
  induction p with
  | nil => rfl
  | cons c cs ih => simp [dropPfx, ih]

theorem parseSeqId_roundtrip (pfx : String) (n : Nat) :
    parseSeqId pfx ⟨pfx.toList ++ '-' :: pad3 (natDigits (n + 1))⟩ = some (n + 1) := by
  unfold parseSeqId
  have hlist : (String.mk (pfx.toList ++ '-' :: pad3 (natDigits (n + 1)))).toList
      = (pfx.toList ++ ['-']) ++ pad3 (natDigits (n + 1)) := by
    simp
  rw [hlist, dropPfx_append]
  have hne : pad3 (natDigits (n + 1)) ≠ [] := pad3_ne_nil (natDigits_ne_nil _)
  have hdig : (pad3 (natDigits (n + 1))).all Char.isDigit = true :=
    pad3_all_digit (natDigits_all_digit _)
  dsimp only
  rw [if_pos ⟨hne, hdig⟩, digitsToNat_pad3, digitsToNat_natDigits]

/-! ## Data model

One structure per record family, mirroring the JSON shapes that mutate.py
creates and validate.py checks.  Fields that the Python code treats as
nullable (`git_tag`, `effective_date`, `superseded_by`, `release_ref` on a
version, `supersedes`) are `Option`; everything else is always written by the
mutation operations and is a plain field. -/

/-- `test_intent` object on a story version. -/
structure TestIntent where
  failure_modes : List String
  guarantees : List String
  exclusions : List String
deriving DecidableEq

structure Release where
  id : String
  title : String
  status : String
  release_date : String
  description : String
  git_tag : Option String
  tags : List String
  owner : String
  notes : String
  created_at : String
  updated_at : String
deriving DecidableEq

structure Artifact where
  id : String
  title : String
  status : String
  type : List String
  source : String
  effective_date : Option String
  doc_path : String
  description : String
  anchors : List String
  tags : List String
  owner : String
  notes : String
  created_at : String
  updated_at : String
deriving DecidableEq

structure Requirement where
  id : String
  title : String
  status : String
  type : String
  invariant : Bool
  statement : String
  rationale : String
  artifact_refs : List String
  superseded_by : Option String
  tags : List String
  owner : String
  notes : String
  created_at : String
  updated_at : String
deriving DecidableEq

structure Feature where
  id : String
  title : String
  status : String
  purpose : String
  business_value : String
  in_scope : List String
  out_of_scope : List String
  requirement_refs : List String
  artifact_refs : List String
  tags : List String
  owner : String
  notes : String
  created_at : String
  updated_at : String
deriving DecidableEq

structure EpicVersion where
  version : Nat
  status : String
  approved : Bool
  release_ref : Option String
  summary : String
  assumptions : List String
  constraints : List String
  requirement_refs : List String
  artifact_refs : List String
  supersedes : Option Nat
  created_at : String
  updated_at : String
  owner : String
  notes : String
deriving DecidableEq

structure Epic where
  id : String
  title : String
  status : String
  feature_ref : String
  tags : List String
  owner : String
  created_at : String
  versions : List EpicVersion
deriving DecidableEq

structure StoryVersion where
  version : Nat
  status : String
  approved : Bool
  release_ref : Option String
  description : String
  requirement_refs : List String
  artifact_refs : List String
  acceptance_criteria : List String
  test_intent : TestIntent
  supersedes : Option Nat
  created_at : String
  updated_at : String
  owner : String
  notes : String
deriving DecidableEq

structure Story where
  id : String
  title : String
  status : String
  epic_ref : String
  tags : List String
  owner : String
  created_at : String
  versions : List StoryVersion
deriving DecidableEq

/-- The six family files of the record store (`data/*.json`), loaded together. -/
structure Store where
  releases : List Release
  artifacts : List Artifact
  requirements : List Requirement
  features : List Feature
  epics : List Epic
  stories : List Story
deriving DecidableEq

/-- The structured result every mutation operation returns
(`success_response` / `error_response` in mutate.py). -/
inductive MResult where
  | ok (message : String) : MResult
  | err (message : String) : MResult
deriving DecidableEq

def MResult.isErr : MResult → Bool
  | .ok _ => false
  | .err _ => true

def success_response (message : String) : MResult := .ok message

def error_response (message : String) : MResult := .err message

/-! ## Core helper functions of mutate.py

The Python helpers are duck-typed over any record dict with an `"id"` key; we
mirror that with a `HasId` class. -/

class HasId (α : Type) where
  idOf : α → String

instance : HasId Release := ⟨Release.id⟩
instance : HasId Artifact := ⟨Artifact.id⟩
instance : HasId Requirement := ⟨Requirement.id⟩
instance : HasId Feature := ⟨Feature.id⟩
instance : HasId Epic := ⟨Epic.id⟩
instance : HasId Story := ⟨Story.id⟩

/-- `ID_PREFIXES` table from mutate.py. -/
def ID_PREFIXES : String → String
  | "releases" => "REL"
  | "artifacts" => "ART"
  | "requirements" => "REQ"
  | "features" => "FEAT"
  | "epics" => "EPIC"
  | "stories" => "STORY"
  | _ => ""

/-- `generate_id`: scan records whose id matches `^{prefix}-(\d+)$`, take the
maximum captured number, and return `f"{prefix}-{max+1:03d}"`.  (The Python
function raises for `family == "releases"`; no embedded operation calls it
with that family.) -/
def generate_id {α : Type} [HasId α] (family : String) (data : List α) : String :=
  let pfx := ID_PREFIXES family
  let maxNum := data.foldl
    (fun m r => match parseSeqId pfx (HasId.idOf r) with
      | some n => max m n
      | none => m) 0
  ⟨pfx.toList ++ '-' :: pad3 (natDigits (maxNum + 1))⟩

/-- `validate_id_format` for the sequential families: `^{prefix}-\d{3,}$`. -/
def seqIdFormatOk (pfx : String) (rid : String) : Bool :=
  match dropPfx (pfx.toList ++ ['-']) rid.toList with
  | none => false
  | some rest => rest.length ≥ 3 && rest.all Char.isDigit

/-- `validate_id_format` for releases: `^REL-\d{4}-\d{2}-\d{2}(-[a-z])?$`. -/
def releaseIdFormatOk (rid : String) : Bool :=
  match rid.toList with
  | 'R' :: 'E' :: 'L' :: '-' :: y1 :: y2 :: y3 :: y4 :: '-' :: m1 :: m2 :: '-' :: d1 :: d2 :: rest =>
    [y1, y2, y3, y4, m1, m2, d1, d2].all Char.isDigit &&
      (rest.isEmpty ||
        (match rest with
         | ['-', c] => c.isLower
         | _ => false))
  | _ => false

/-- `validate_id_format(record_id, family)` from mutate.py. -/
def validate_id_format (rid : String) (family : String) : Bool :=
  if family = "releases" then releaseIdFormatOk rid
  else seqIdFormatOk (ID_PREFIXES family) rid

/-- `id_exists`: does any record carry this id? -/
def id_exists {α : Type} [HasId α] (rid : String) (data : List α) : Bool :=
  data.any (fun r => HasId.idOf r == rid)

/-- `find_record_by_id`: first record with the id, or none. -/
def find_record_by_id {α : Type} [HasId α] (rid : String) (data : List α) : Option α :=
  data.find? (fun r => HasId.idOf r == rid)

/-- `validate_refs`: first unresolved reference as an error message, or none. -/
def validate_refs {α : Type} [HasId α] (refs : List String) (target : List α)
    (ref_type : String) : Option String :=
  match refs with
  | [] => none
  | r :: rest =>
    if (find_record_by_id r target).isNone then
      some (ref_type ++ " " ++ r ++ " not found")
    else validate_refs rest target ref_type

/-- `validate_release_ref`: the release must exist and must not be in a
terminal shipped status (`released` / `superseded`). -/
def validate_release_ref (release_ref : String) (releases : List Release) :
    Option String :=
  match find_record_by_id release_ref releases with
  | none => some ("Release " ++ release_ref ++ " not found")
  | some rel =>
    if rel.status = "released" ∨ rel.status = "superseded" then
      some ("Cannot add versions to " ++ rel.status ++ " release " ++ release_ref)
    else none

/-- Replace the first element satisfying `p` — the effect of Python's
in-place mutation of the record object returned by a linear search. -/
def replaceFirst {α : Type} (p : α → Bool) (new : α) : List α → List α
  | [] => []
  | x :: xs => if p x then new :: xs else x :: replaceFirst p new xs

/-- Python's `payload.get("id") or generate_id(...)`: a missing id **or an
empty-string id** (falsy) falls back to generation. -/
def idOrGenerate {α : Type} [HasId α] (pid : Option String) (family : String)
    (data : List α) : String :=
  match pid with
  | some s => if s = "" then generate_id family data else s
  | none => generate_id family data

/-- `max(v["version"] for v in versions)` — for the nonempty lists of
naturals on which the operations evaluate it, the Python `max` coincides with
this fold from 0. -/
def maxVer {α : Type} (ver : α → Nat) (vs : List α) : Nat :=
  vs.foldl (fun m v => max m (ver v)) 0

/-! ## Payload types

One structure per operation, holding exactly the JSON fields the operation
reads.  `Option` marks a field that may be absent from the payload;
`payload.get(k, d)` becomes `Option.getD`. -/

/-- The artifact `type` payload field is accepted as a string or a list. -/
inductive StrOrList where
  | str (s : String)
  | list (l : List String)
deriving DecidableEq

structure CreateReleasePayload where
  id : Option String
  title : Option String
  release_date : Option String
  description : Option String
  git_tag : Option String
  tags : Option (List String)
  owner : Option String
  notes : Option String
deriving DecidableEq

structure SetReleaseStatusPayload where
  id : Option String
  status : Option String
deriving DecidableEq

structure AddDomainEntryPayload where
  id : Option String
  title : Option String
  status : Option String
  type : Option StrOrList
  source : Option String
  effective_date : Option String
  doc_path : Option String
  description : Option String
  anchors : Option (List String)
  tags : Option (List String)
  owner : Option String
  notes : Option String
deriving DecidableEq

structure UpdateDomainEntryPayload where
  id : Option String
  title : Option String
  type : Option (List String)
  source : Option String
  effective_date : Option (Option String)
  doc_path : Option String
  anchors : Option (List String)
  tags : Option (List String)
  owner : Option String
  notes : Option String
deriving DecidableEq

structure IdPayload where
  id : Option String
deriving DecidableEq

structure RequirementFields where
  id : Option String
  title : Option String
  type : Option String
  invariant : Option Bool
  statement : Option String
  rationale : Option String
  artifact_refs : Option (List String)
  tags : Option (List String)
  owner : Option String
  notes : Option String
deriving DecidableEq

structure UpdateRequirementPayload where
  id : Option String
  title : Option String
  invariant : Option Bool
  statement : Option String
  rationale : Option String
  artifact_refs : Option (List String)
  tags : Option (List String)
  owner : Option String
  notes : Option String
deriving DecidableEq

structure SupersedeRequirementPayload where
  old_id : Option String
  new_requirement : Option RequirementFields
deriving DecidableEq

structure AddFeaturePayload where
  id : Option String
  title : Option String
  purpose : Option String
  business_value : Option String
  in_scope : Option (List String)
  out_of_scope : Option (List String)
  requirement_refs : Option (List String)
  artifact_refs : Option (List String)
  tags : Option (List String)
  owner : Option String
  notes : Option String
deriving DecidableEq

structure UpdateFeaturePayload where
  id : Option String
  title : Option String
  purpose : Option String
  business_value : Option String
  in_scope : Option (List String)
  out_of_scope : Option (List String)
  requirement_refs : Option (List String)
  artifact_refs : Option (List String)
  tags : Option (List String)
  owner : Option String
  notes : Option String
deriving DecidableEq

structure AddEpicPayload where
  id : Option String
  title : Option String
  feature_ref : Option String
  release_ref : Option String
  summary : Option String
  assumptions : Option (List String)
  constraints : Option (List String)
  requirement_refs : Option (List String)
  artifact_refs : Option (List String)
  tags : Option (List String)
  owner : Option String
  notes : Option String
deriving DecidableEq

structure CreateEpicVersionPayload where
  epic_id : Option String
  release_ref : Option String
  summary : Option String
  assumptions : Option (List String)
  constraints : Option (List String)
  requirement_refs : Option (List String)
  artifact_refs : Option (List String)
  owner : Option String
  notes : Option String
deriving DecidableEq

structure SetEpicVersionStatusPayload where
  epic_id : Option String
  status : Option String
  version : Option Nat
deriving DecidableEq

structure SetEpicApprovedPayload where
  epic_id : Option String
  approved : Option Bool
  version : Option Nat
deriving DecidableEq

structure EpicIdPayload where
  epic_id : Option String
deriving DecidableEq

structure AddStoryPayload where
  id : Option String
  title : Option String
  epic_ref : Option String
  release_ref : Option String
  description : Option String
  requirement_refs : Option (List String)
  artifact_refs : Option (List String)
  acceptance_criteria : Option (List String)
  test_intent : Option TestIntent
  tags : Option (List String)
  owner : Option String
  notes : Option String
deriving DecidableEq

structure CreateStoryVersionPayload where
  story_id : Option String
  release_ref : Option String
  description : Option String
  requirement_refs : Option (List String)
  artifact_refs : Option (List String)
  acceptance_criteria : Option (List String)
  test_intent : Option TestIntent
  owner : Option String
  notes : Option String
deriving DecidableEq

structure SetStoryStatusPayload where
  story_id : Option String
  status : Option String
  version : Option Nat
deriving DecidableEq

structure SetStoryApprovedPayload where
  story_id : Option String
  approved : Option Bool
  version : Option Nat
deriving DecidableEq

structure StoryIdPayload where
  story_id : Option String
deriving DecidableEq

/-! ## Release operations -/

/-- `create_release`: new release with status `planned`. -/
def create_release (p : CreateReleasePayload) (ts : String) (s : Store) :
    MResult × Store :=
  if p.id.isNone then (error_response "Missing required field: id", s)
  else if p.release_date.isNone then
    (error_response "Missing required field: release_date", s)
  else if p.description.isNone then
    (error_response "Missing required field: description", s)
  else
    let release_id := p.id.getD ""
    if ¬ releaseIdFormatOk release_id then
      (error_response ("Invalid release ID format: " ++ release_id ++
        ". Expected REL-YYYY-MM-DD"), s)
    else if id_exists release_id s.releases then
      (error_response ("Release " ++ release_id ++ " already exists"), s)
    else
      let record : Release := {
        id := release_id
        title := p.title.getD release_id
        status := "planned"
        release_date := p.release_date.getD ""
        description := p.description.getD ""
        git_tag := p.git_tag
        tags := p.tags.getD []
        owner := p.owner.getD ""
        notes := p.notes.getD ""
        created_at := ts
        updated_at := ts }
      (success_response ("Release " ++ release_id ++ " created successfully"),
        { s with releases := s.releases ++ [record] })

/-- `set_release_status`: transition `planned → released`. -/
def set_release_status (p : SetReleaseStatusPayload) (ts : String) (s : Store) :
    MResult × Store :=
  match p.id, p.status with
  | some release_id, some new_status =>
    if new_status ≠ "released" then
      (error_response ("Invalid target status: " ++ new_status ++
        ". Must be released"), s)
    else
      match find_record_by_id release_id s.releases with
      | none => (error_response ("Release " ++ release_id ++ " not found"), s)
      | some release =>
        if release.status ≠ "planned" then
          (error_response ("Cannot transition from " ++ release.status ++ " to " ++
            new_status ++ ". Only planned releases can be transitioned."), s)
        else
          let rel' := { release with status := new_status, updated_at := ts }
          (success_response ("Release " ++ release_id ++ " status set to " ++ new_status),
            { s with releases :=
                replaceFirst (fun r => r.id == release_id) rel' s.releases })
  | _, _ => (error_response "Missing required fields: id, status", s)

/-! ## Artifact operations -/

/-- `add_domain_entry` (create_artifact). -/
def add_domain_entry (p : AddDomainEntryPayload) (ts : String) (s : Store) :
    MResult × Store :=
  if p.title.isNone then (error_response "Missing required field: title", s)
  else if p.type.isNone then (error_response "Missing required field: type", s)
  else if p.source.isNone then (error_response "Missing required field: source", s)
  else if p.doc_path.isNone then (error_response "Missing required field: doc_path", s)
  else
    let entry_type : List String :=
      match p.type with
      | some (.str t) => [t]
      | some (.list l) => l
      | none => []
    match entry_type.find?
        (fun t => !(["policy", "catalog", "classification", "rule"].contains t)) with
    | some t =>
      (error_response ("Invalid type " ++ t ++
        ". Must be one of policy, catalog, classification, rule"), s)
    | none =>
      let dom_id := idOrGenerate p.id "artifacts" s.artifacts
      if ¬ seqIdFormatOk "ART" dom_id then
        (error_response ("Invalid artifact ID format: " ++ dom_id), s)
      else if id_exists dom_id s.artifacts then
        (error_response ("Business artifact " ++ dom_id ++ " already exists"), s)
      else
        let record : Artifact := {
          id := dom_id
          title := p.title.getD ""
          status := p.status.getD "draft"
          type := entry_type
          source := p.source.getD ""
          effective_date := p.effective_date
          doc_path := p.doc_path.getD ""
          description := p.description.getD ""
          anchors := p.anchors.getD []
          tags := p.tags.getD []
          owner := p.owner.getD ""
          notes := p.notes.getD ""
          created_at := ts
          updated_at := ts }
        (success_response ("Business artifact " ++ dom_id ++ " created successfully"),
          { s with artifacts := s.artifacts ++ [record] })

/-- `update_domain_entry`. -/
def update_domain_entry (p : UpdateDomainEntryPayload) (ts : String) (s : Store) :
    MResult × Store :=
  match p.id with
  | none => (error_response "Missing required field: id", s)
  | some dom_id =>
    match find_record_by_id dom_id s.artifacts with
    | none => (error_response ("Business artifact " ++ dom_id ++ " not found"), s)
    | some record =>
      if record.status = "deprecated" then
        (error_response ("Cannot update deprecated business artifact " ++ dom_id), s)
      else
        let rec' : Artifact := { record with
          title := p.title.getD record.title
          type := p.type.getD record.type
          source := p.source.getD record.source
          effective_date := p.effective_date.getD record.effective_date
          doc_path := p.doc_path.getD record.doc_path
          anchors := p.anchors.getD record.anchors
          tags := p.tags.getD record.tags
          owner := p.owner.getD record.owner
          notes := p.notes.getD record.notes
          updated_at := ts }
        (success_response ("Business artifact " ++ dom_id ++ " updated successfully"),
          { s with artifacts :=
              replaceFirst (fun r => r.id == dom_id) rec' s.artifacts })

/-- `activate_domain_entry`: `draft → active`. -/
def activate_domain_entry (p : IdPayload) (ts : String) (s : Store) :
    MResult × Store :=
  match p.id with
  | none => (error_response "Missing required field: id", s)
  | some dom_id =>
    match find_record_by_id dom_id s.artifacts with
    | none => (error_response ("Business artifact " ++ dom_id ++ " not found"), s)
    | some entry =>
      if entry.status ≠ "draft" then
        (error_response ("Business artifact " ++ dom_id ++
          " is not in draft status (current: " ++ entry.status ++ ")"), s)
      else
        let rec' := { entry with status := "active", updated_at := ts }
        (success_response ("Business artifact " ++ dom_id ++ " activated"),
          { s with artifacts :=
              replaceFirst (fun r => r.id == dom_id) rec' s.artifacts })

/-- `deprecate_domain_entry` — note: no already-deprecated check. -/
def deprecate_domain_entry (p : IdPayload) (ts : String) (s : Store) :
    MResult × Store :=
  match p.id with
  | none => (error_response "Missing required field: id", s)
  | some dom_id =>
    match find_record_by_id dom_id s.artifacts with
    | none => (error_response ("Domain entry " ++ dom_id ++ " not found"), s)
    | some record =>
      let rec' := { record with status := "deprecated", updated_at := ts }
      (success_response ("Domain entry " ++ dom_id ++ " deprecated"),
        { s with artifacts :=
            replaceFirst (fun r => r.id == dom_id) rec' s.artifacts })

/-! ## Requirement operations -/

/-- Build the new requirement record shared by `add_requirement` and
`supersede_requirement` (both construct the same dict shape). -/
def buildRequirement (f : RequirementFields) (req_id : String)
    (artifact_refs : List String) (ts : String) : Requirement := {
  id := req_id
  title := f.title.getD ""
  status := "active"
  type := f.type.getD ""
  invariant := f.invariant.getD false
  statement := f.statement.getD ""
  rationale := f.rationale.getD ""
  artifact_refs := artifact_refs
  superseded_by := none
  tags := f.tags.getD []
  owner := f.owner.getD ""
  notes := f.notes.getD ""
  created_at := ts
  updated_at := ts }

/-- `add_requirement`. -/
def add_requirement (p : RequirementFields) (ts : String) (s : Store) :
    MResult × Store :=
  if p.title.isNone then (error_response "Missing required field: title", s)
  else if p.type.isNone then (error_response "Missing required field: type", s)
  else if p.statement.isNone then (error_response "Missing required field: statement", s)
  else if p.rationale.isNone then (error_response "Missing required field: rationale", s)
  else if p.type.getD "" ≠ "functional" ∧ p.type.getD "" ≠ "non-functional" then
    (error_response ("Invalid type: " ++ p.type.getD "" ++
      ". Must be functional or non-functional"), s)
  else
    let req_id := idOrGenerate p.id "requirements" s.requirements
    if ¬ seqIdFormatOk "REQ" req_id then
      (error_response ("Invalid requirement ID format: " ++ req_id), s)
    else if id_exists req_id s.requirements then
      (error_response ("Requirement " ++ req_id ++ " already exists"), s)
    else
      let artifact_refs := p.artifact_refs.getD []
      match (if artifact_refs ≠ [] then
          validate_refs artifact_refs s.artifacts "Artifact reference" else none) with
      | some e => (error_response e, s)
      | none =>
        (success_response ("Requirement " ++ req_id ++ " created successfully"),
          { s with requirements :=
              s.requirements ++ [buildRequirement p req_id artifact_refs ts] })

/-- `update_requirement`. -/
def update_requirement (p : UpdateRequirementPayload) (ts : String) (s : Store) :
    MResult × Store :=
  match p.id with
  | none => (error_response "Missing required field: id", s)
  | some req_id =>
    match find_record_by_id req_id s.requirements with
    | none => (error_response ("Requirement " ++ req_id ++ " not found"), s)
    | some record =>
      if record.status = "deprecated" then
        (error_response ("Cannot update deprecated requirement " ++ req_id), s)
      else
        match (match p.artifact_refs with
          | some refs => validate_refs refs s.artifacts "Artifact reference"
          | none => none) with
        | some e => (error_response e, s)
        | none =>
          let rec' : Requirement := { record with
            title := p.title.getD record.title
            invariant := p.invariant.getD record.invariant
            statement := p.statement.getD record.statement
            rationale := p.rationale.getD record.rationale
            artifact_refs := p.artifact_refs.getD record.artifact_refs
            tags := p.tags.getD record.tags
            owner := p.owner.getD record.owner
            notes := p.notes.getD record.notes
            updated_at := ts }
          (success_response ("Requirement " ++ req_id ++ " updated successfully"),
            { s with requirements :=
                replaceFirst (fun r => r.id == req_id) rec' s.requirements })

/-- `deprecate_requirement` — note: no already-deprecated check. -/
def deprecate_requirement (p : IdPayload) (ts : String) (s : Store) :
    MResult × Store :=
  match p.id with
  | none => (error_response "Missing required field: id", s)
  | some req_id =>
    match find_record_by_id req_id s.requirements with
    | none => (error_response ("Requirement " ++ req_id ++ " not found"), s)
    | some record =>
      let rec' := { record with status := "deprecated", updated_at := ts }
      (success_response ("Requirement " ++ req_id ++ " deprecated"),
        { s with requirements :=
            replaceFirst (fun r => r.id == req_id) rec' s.requirements })

/-- `supersede_requirement`: the single two-record transaction — appends the
new requirement and flips the old one to `deprecated` with `superseded_by`
set, committed together. -/
def supersede_requirement (p : SupersedeRequirementPayload) (ts : String)
    (s : Store) : MResult × Store :=
  match p.old_id, p.new_requirement with
  | some old_id, some np =>
    match find_record_by_id old_id s.requirements with
    | none => (error_response ("Requirement " ++ old_id ++ " not found"), s)
    | some old_record =>
      if old_record.status = "deprecated" then
        (error_response ("Requirement " ++ old_id ++ " is already deprecated"), s)
      else if np.title.isNone then
        (error_response "New requirement missing required field: title", s)
      else if np.type.isNone then
        (error_response "New requirement missing required field: type", s)
      else if np.statement.isNone then
        (error_response "New requirement missing required field: statement", s)
      else if np.rationale.isNone then
        (error_response "New requirement missing required field: rationale", s)
      else
        let new_id := idOrGenerate np.id "requirements" s.requirements
        if ¬ seqIdFormatOk "REQ" new_id then
          (error_response ("Invalid requirement ID format: " ++ new_id), s)
        else if id_exists new_id s.requirements then
          (error_response ("Requirement " ++ new_id ++ " already exists"), s)
        else
          let artifact_refs := np.artifact_refs.getD []
          match (if artifact_refs ≠ [] then
              validate_refs artifact_refs s.artifacts "Artifact reference" else none) with
          | some e => (error_response e, s)
          | none =>
            let old' := { old_record with
              status := "deprecated"
              superseded_by := some new_id
              updated_at := ts }
            let appended := s.requirements ++ [buildRequirement np new_id artifact_refs ts]
            (success_response ("Requirement " ++ old_id ++ " superseded by " ++ new_id),
              { s with requirements :=
                  replaceFirst (fun r => r.id == old_id) old' appended })
  | _, _ => (error_response "Missing required fields: old_id, new_requirement", s)

/-! ## Feature operations -/

/-- `add_feature`. -/
def add_feature (p : AddFeaturePayload) (ts : String) (s : Store) :
    MResult × Store :=
  if p.title.isNone then (error_response "Missing required field: title", s)
  else if p.purpose.isNone then (error_response "Missing required field: purpose", s)
  else if p.business_value.isNone then
    (error_response "Missing required field: business_value", s)
  else
    let feat_id := idOrGenerate p.id "features" s.features
    if ¬ seqIdFormatOk "FEAT" feat_id then
      (error_response ("Invalid feature ID format: " ++ feat_id), s)
    else if id_exists feat_id s.features then
      (error_response ("Feature " ++ feat_id ++ " already exists"), s)
    else
      let requirement_refs := p.requirement_refs.getD []
      match (if requirement_refs ≠ [] then
          validate_refs requirement_refs s.requirements "Requirement reference"
        else none) with
      | some e => (error_response e, s)
      | none =>
        let artifact_refs := p.artifact_refs.getD []
        match (if artifact_refs ≠ [] then
            validate_refs artifact_refs s.artifacts "Artifact reference" else none) with
        | some e => (error_response e, s)
        | none =>
          let record : Feature := {
            id := feat_id
            title := p.title.getD ""
            status := "active"
            purpose := p.purpose.getD ""
            business_value := p.business_value.getD ""
            in_scope := p.in_scope.getD []
            out_of_scope := p.out_of_scope.getD []
            requirement_refs := requirement_refs
            artifact_refs := artifact_refs
            tags := p.tags.getD []
            owner := p.owner.getD ""
            notes := p.notes.getD ""
            created_at := ts
            updated_at := ts }
          (success_response ("Feature " ++ feat_id ++ " created successfully"),
            { s with features := s.features ++ [record] })

/-- `update_feature`. -/
def update_feature (p : UpdateFeaturePayload) (ts : String) (s : Store) :
    MResult × Store :=
  match p.id with
  | none => (error_response "Missing required field: id", s)
  | some feat_id =>
    match find_record_by_id feat_id s.features with
    | none => (error_response ("Feature " ++ feat_id ++ " not found"), s)
    | some record =>
      if record.status = "deprecated" then
        (error_response ("Cannot update deprecated feature " ++ feat_id), s)
      else
        match (match p.requirement_refs with
          | some refs => validate_refs refs s.requirements "Requirement reference"
          | none => none) with
        | some e => (error_response e, s)
        | none =>
          match (match p.artifact_refs with
            | some refs => validate_refs refs s.artifacts "Artifact reference"
            | none => none) with
          | some e => (error_response e, s)
          | none =>
            let rec' : Feature := { record with
              title := p.title.getD record.title
              purpose := p.purpose.getD record.purpose
              business_value := p.business_value.getD record.business_value
              in_scope := p.in_scope.getD record.in_scope
              out_of_scope := p.out_of_scope.getD record.out_of_scope
              requirement_refs := p.requirement_refs.getD record.requirement_refs
              artifact_refs := p.artifact_refs.getD record.artifact_refs
              tags := p.tags.getD record.tags
              owner := p.owner.getD record.owner
              notes := p.notes.getD record.notes
              updated_at := ts }
            (success_response ("Feature " ++ feat_id ++ " updated successfully"),
              { s with features :=
                  replaceFirst (fun r => r.id == feat_id) rec' s.features })

/-- `deprecate_feature` — note: no already-deprecated check. -/
def deprecate_feature (p : IdPayload) (ts : String) (s : Store) :
    MResult × Store :=
  match p.id with
  | none => (error_response "Missing required field: id", s)
  | some feat_id =>
    match find_record_by_id feat_id s.features with
    | none => (error_response ("Feature " ++ feat_id ++ " not found"), s)
    | some record =>
      let rec' := { record with status := "deprecated", updated_at := ts }
      (success_response ("Feature " ++ feat_id ++ " deprecated"),
        { s with features :=
            replaceFirst (fun r => r.id == feat_id) rec' s.features })

/-! ## Epic operations (versioned) -/

/-- `add_epic`: new epic with version 1 in `backlog`. -/
def add_epic (p : AddEpicPayload) (ts : String) (s : Store) : MResult × Store :=
  if p.title.isNone then (error_response "Missing required field: title", s)
  else if p.feature_ref.isNone then
    (error_response "Missing required field: feature_ref", s)
  else if p.release_ref.isNone then
    (error_response "Missing required field: release_ref", s)
  else if p.summary.isNone then (error_response "Missing required field: summary", s)
  else if (find_record_by_id (p.feature_ref.getD "") s.features).isNone then
    (error_response ("Feature " ++ p.feature_ref.getD "" ++ " not found"), s)
  else
    match validate_release_ref (p.release_ref.getD "") s.releases with
    | some e => (error_response e, s)
    | none =>
      let requirement_refs := p.requirement_refs.getD []
      match (if requirement_refs ≠ [] then
          validate_refs requirement_refs s.requirements "Requirement reference"
        else none) with
      | some e => (error_response e, s)
      | none =>
        let artifact_refs := p.artifact_refs.getD []
        match (if artifact_refs ≠ [] then
            validate_refs artifact_refs s.artifacts "Artifact reference" else none) with
        | some e => (error_response e, s)
        | none =>
          let epic_id := idOrGenerate p.id "epics" s.epics
          if ¬ seqIdFormatOk "EPIC" epic_id then
            (error_response ("Invalid epic ID format: " ++ epic_id), s)
          else if id_exists epic_id s.epics then
            (error_response ("Epic " ++ epic_id ++ " already exists"), s)
          else
            let version : EpicVersion := {
              version := 1
              status := "backlog"
              approved := false
              release_ref := some (p.release_ref.getD "")
              summary := p.summary.getD ""
              assumptions := p.assumptions.getD []
              constraints := p.constraints.getD []
              requirement_refs := requirement_refs
              artifact_refs := artifact_refs
              supersedes := none
              created_at := ts
              updated_at := ts
              owner := p.owner.getD ""
              notes := p.notes.getD "" }
            let record : Epic := {
              id := epic_id
              title := p.title.getD ""
              status := "active"
              feature_ref := p.feature_ref.getD ""
              tags := p.tags.getD []
              owner := p.owner.getD ""
              created_at := ts
              versions := [version] }
            (success_response ("Epic " ++ epic_id ++ " created with version 1"),
              { s with epics := s.epics ++ [record] })

/-- The outgoing version as `create_epic_version` rewrites it: terminal
status resolved by the `approved` flag, `updated_at` stamped. -/
def supersededEpicVersion (v : EpicVersion) (ts : String) : EpicVersion :=
  { v with status := if v.approved then "released" else "discarded", updated_at := ts }

def supersededStoryVersion (v : StoryVersion) (ts : String) : StoryVersion :=
  { v with status := if v.approved then "released" else "discarded", updated_at := ts }

/-- The new epic version record that `create_epic_version` appends: numbered
`num`, in `backlog`, unapproved, superseding the outgoing version `cur`, and
copying forward any field the payload does not override (empty ref lists in
the payload also fall back to the outgoing version's, per Python `or`). -/
def newEpicVersion (p : CreateEpicVersionPayload) (rr sm ts : String) (num : Nat)
    (cur : EpicVersion) : EpicVersion :=
  { version := num
    status := "backlog"
    approved := false
    release_ref := some rr
    summary := sm
    assumptions := p.assumptions.getD cur.assumptions
    constraints := p.constraints.getD cur.constraints
    requirement_refs :=
      if p.requirement_refs.getD [] = [] then cur.requirement_refs
      else p.requirement_refs.getD []
    artifact_refs :=
      if p.artifact_refs.getD [] = [] then cur.artifact_refs
      else p.artifact_refs.getD []
    supersedes := some cur.version
    created_at := ts
    updated_at := ts
    owner := p.owner.getD ""
    notes := p.notes.getD "" }

/-- The new story version record that `create_story_version` appends. -/
def newStoryVersion (p : CreateStoryVersionPayload) (rr ds ts : String) (num : Nat)
    (cur : StoryVersion) : StoryVersion :=
  { version := num
    status := "backlog"
    approved := false
    release_ref := some rr
    description := ds
    requirement_refs :=
      if p.requirement_refs.getD [] = [] then cur.requirement_refs
      else p.requirement_refs.getD []
    artifact_refs :=
      if p.artifact_refs.getD [] = [] then cur.artifact_refs
      else p.artifact_refs.getD []
    acceptance_criteria := p.acceptance_criteria.getD cur.acceptance_criteria
    test_intent := p.test_intent.getD cur.test_intent
    supersedes := some cur.version
    created_at := ts
    updated_at := ts
    owner := p.owner.getD ""
    notes := p.notes.getD "" }

/-- `create_epic_version`: supersede the current backlog version and append a
new one numbered `max(existing)+1`. -/
def create_epic_version (p : CreateEpicVersionPayload) (ts : String) (s : Store) :
    MResult × Store :=
  match p.epic_id, p.release_ref, p.summary with
  | some epic_id, some release_ref, some summary =>
    match find_record_by_id epic_id s.epics with
    | none => (error_response ("Epic " ++ epic_id ++ " not found"), s)
    | some epic =>
      match validate_release_ref release_ref s.releases with
      | some e => (error_response e, s)
      | none =>
        let requirement_refs := p.requirement_refs.getD []
        match (if requirement_refs ≠ [] then
            validate_refs requirement_refs s.requirements "Requirement reference"
          else none) with
        | some e => (error_response e, s)
        | none =>
          let artifact_refs := p.artifact_refs.getD []
          match (if artifact_refs ≠ [] then
              validate_refs artifact_refs s.artifacts "Artifact reference" else none) with
          | some e => (error_response e, s)
          | none =>
            match epic.versions.filter (fun v => v.status == "backlog") with
            | [] =>
              (error_response ("Epic " ++ epic_id ++
                " has no backlog version to supersede"), s)
            | current_version :: _ =>
              let cur' := supersededEpicVersion current_version ts
              let new_version : EpicVersion := newEpicVersion p release_ref summary ts
                (maxVer EpicVersion.version epic.versions + 1) current_version
              let newVersions :=
                replaceFirst (fun v => v.status == "backlog") cur' epic.versions
                  ++ [new_version]
              let epic' := { epic with versions := newVersions }
              (success_response ("Epic " ++ epic_id ++ " version created"),
                { s with epics :=
                    replaceFirst (fun e => e.id == epic_id) epic' s.epics })
  | _, _, _ => (error_response "Missing required fields: epic_id, release_ref, summary", s)

/-- The version-targeting block shared by the `set_*` operations: a
truthy payload `version` selects the first version with that number;
otherwise the first `backlog` version; otherwise (when `useMax` — the
status-setting operations) the highest-numbered version. -/
def resolveEpicTarget (pv : Option Nat) (versions : List EpicVersion)
    (useMax : Bool) : Option (Nat × EpicVersion) :=
  if pv.getD 0 ≠ 0 then
    match versions.find? (fun v => v.version == pv.getD 0) with
    | some v => some (pv.getD 0, v)
    | none => none
  else
    match versions.filter (fun v => v.status == "backlog") with
    | v :: _ => some (v.version, v)
    | [] =>
      if useMax then
        match versions.find? (fun v => v.version == maxVer EpicVersion.version versions) with
        | some v => some (maxVer EpicVersion.version versions, v)
        | none => none
      else none

def resolveStoryTarget (pv : Option Nat) (versions : List StoryVersion)
    (useMax : Bool) : Option (Nat × StoryVersion) :=
  if pv.getD 0 ≠ 0 then
    match versions.find? (fun v => v.version == pv.getD 0) with
    | some v => some (pv.getD 0, v)
    | none => none
  else
    match versions.filter (fun v => v.status == "backlog") with
    | v :: _ => some (v.version, v)
    | [] =>
      if useMax then
        match versions.find? (fun v => v.version == maxVer StoryVersion.version versions) with
        | some v => some (maxVer StoryVersion.version versions, v)
        | none => none
      else none

/-- `set_epic_version_status`.  When no `version` is given (or it is 0, falsy
in Python) the backlog version is targeted, falling back to the
highest-numbered version.  On an empty `versions[]` the Python `max()` call
raises and the CLI dispatcher converts that to an error response. -/
def set_epic_version_status (p : SetEpicVersionStatusPayload) (ts : String)
    (s : Store) : MResult × Store :=
  match p.epic_id, p.status with
  | some epic_id, some new_status =>
    if ¬ (new_status = "backlog" ∨ new_status = "released" ∨ new_status = "discarded") then
      (error_response ("Invalid status: " ++ new_status ++
        ". Must be one of backlog, released, discarded"), s)
    else
      match find_record_by_id epic_id s.epics with
      | none => (error_response ("Epic " ++ epic_id ++ " not found"), s)
      | some epic =>
        match resolveEpicTarget p.version epic.versions true with
        | none =>
          if p.version.getD 0 ≠ 0 then
            (error_response ("Epic " ++ epic_id ++ " version not found"), s)
          else
            (error_response "Operation failed: max() arg is an empty sequence", s)
        | some (version_num, version) =>
          if version.status = "released" ∨ version.status = "discarded" then
            (error_response ("Cannot modify " ++ version.status ++ " version"), s)
          else
            let existing_backlog := epic.versions.filter
              (fun v => v.status == "backlog" && v.version != version_num)
            if new_status = "backlog" ∧ existing_backlog ≠ [] then
              (error_response "Cannot set to backlog: another version is already in backlog", s)
            else
              let v' := { version with status := new_status, updated_at := ts }
              let newVersions := replaceFirst (fun v => v == version) v' epic.versions
              let epic' := { epic with versions := newVersions }
              (success_response ("Epic " ++ epic_id ++ " version status set to " ++
                new_status),
                { s with epics :=
                    replaceFirst (fun e => e.id == epic_id) epic' s.epics })
  | _, _ => (error_response "Missing required fields: epic_id, status", s)

/-- `set_epic_approved`: flip the `approved` flag on the targeted (backlog)
version.  (The Python `isinstance(approved, bool)` check cannot fail in the
typed embedding.) -/
def set_epic_approved (p : SetEpicApprovedPayload) (ts : String) (s : Store) :
    MResult × Store :=
  match p.epic_id, p.approved with
  | some epic_id, some approved =>
    match find_record_by_id epic_id s.epics with
    | none => (error_response ("Epic " ++ epic_id ++ " not found"), s)
    | some epic =>
      match resolveEpicTarget p.version epic.versions false with
      | none =>
        if p.version.getD 0 ≠ 0 then
          (error_response ("Epic " ++ epic_id ++ " version not found"), s)
        else
          (error_response ("Epic " ++ epic_id ++ " has no backlog version"), s)
      | some (_, version) =>
        if version.status ≠ "backlog" then
          (error_response ("Cannot modify approved on " ++ version.status ++ " version"), s)
        else
          let v' := { version with approved := approved, updated_at := ts }
          let newVersions := replaceFirst (fun v => v == version) v' epic.versions
          let epic' := { epic with versions := newVersions }
          (success_response ("Epic " ++ epic_id ++ " approved set"),
            { s with epics :=
                replaceFirst (fun e => e.id == epic_id) epic' s.epics })
  | _, _ => (error_response "Missing required fields: epic_id, approved", s)

/-- `deprecate_epic`: rejects an already-deprecated epic, force-discards any
backlog version, sets the outer status to `deprecated`. -/
def deprecate_epic (p : EpicIdPayload) (ts : String) (s : Store) :
    MResult × Store :=
  match p.epic_id with
  | none => (error_response "Missing required field: epic_id", s)
  | some epic_id =>
    match find_record_by_id epic_id s.epics with
    | none => (error_response ("Epic " ++ epic_id ++ " not found"), s)
    | some epic =>
      if epic.status = "deprecated" then
        (error_response ("Epic " ++ epic_id ++ " is already deprecated"), s)
      else
        let epic' := { epic with
          status := "deprecated"
          versions := epic.versions.map (fun v =>
            if v.status == "backlog" then
              { v with status := "discarded", updated_at := ts }
            else v) }
        (success_response ("Epic " ++ epic_id ++ " deprecated"),
          { s with epics := replaceFirst (fun e => e.id == epic_id) epic' s.epics })

/-! ## Story operations (versioned) -/

/-- `add_story`: new story with version 1 in `backlog`. -/
def add_story (p : AddStoryPayload) (ts : String) (s : Store) : MResult × Store :=
  if p.title.isNone then (error_response "Missing required field: title", s)
  else if p.epic_ref.isNone then
    (error_response "Missing required field: epic_ref", s)
  else if p.release_ref.isNone then
    (error_response "Missing required field: release_ref", s)
  else if p.description.isNone then
    (error_response "Missing required field: description", s)
  else if (find_record_by_id (p.epic_ref.getD "") s.epics).isNone then
    (error_response ("Epic " ++ p.epic_ref.getD "" ++ " not found"), s)
  else
    match validate_release_ref (p.release_ref.getD "") s.releases with
    | some e => (error_response e, s)
    | none =>
      let requirement_refs := p.requirement_refs.getD []
      match (if requirement_refs ≠ [] then
          validate_refs requirement_refs s.requirements "Requirement reference"
        else none) with
      | some e => (error_response e, s)
      | none =>
        let artifact_refs := p.artifact_refs.getD []
        match (if artifact_refs ≠ [] then
            validate_refs artifact_refs s.artifacts "Artifact reference" else none) with
        | some e => (error_response e, s)
        | none =>
          let story_id := idOrGenerate p.id "stories" s.stories
          if ¬ seqIdFormatOk "STORY" story_id then
            (error_response ("Invalid story ID format: " ++ story_id), s)
          else if id_exists story_id s.stories then
            (error_response ("Story " ++ story_id ++ " already exists"), s)
          else
            let version : StoryVersion := {
              version := 1
              status := "backlog"
              approved := false
              release_ref := some (p.release_ref.getD "")
              description := p.description.getD ""
              requirement_refs := requirement_refs
              artifact_refs := artifact_refs
              acceptance_criteria := p.acceptance_criteria.getD []
              test_intent := p.test_intent.getD ⟨[], [], []⟩
              supersedes := none
              created_at := ts
              updated_at := ts
              owner := p.owner.getD ""
              notes := p.notes.getD "" }
            let record : Story := {
              id := story_id
              title := p.title.getD ""
              status := "active"
              epic_ref := p.epic_ref.getD ""
              tags := p.tags.getD []
              owner := p.owner.getD ""
              created_at := ts
              versions := [version] }
            (success_response ("Story " ++ story_id ++ " created with version 1"),
              { s with stories := s.stories ++ [record] })

/-- `create_story_version`: supersede the current backlog version and append a
new one numbered `max(existing)+1`.  (The Python default `{}` for a missing
`test_intent` on the outgoing version cannot occur in the typed embedding.) -/
def create_story_version (p : CreateStoryVersionPayload) (ts : String) (s : Store) :
    MResult × Store :=
  match p.story_id, p.release_ref, p.description with
  | some story_id, some release_ref, some description =>
    match find_record_by_id story_id s.stories with
    | none => (error_response ("Story " ++ story_id ++ " not found"), s)
    | some story =>
      match validate_release_ref release_ref s.releases with
      | some e => (error_response e, s)
      | none =>
        let requirement_refs := p.requirement_refs.getD []
        match (if requirement_refs ≠ [] then
            validate_refs requirement_refs s.requirements "Requirement reference"
          else none) with
        | some e => (error_response e, s)
        | none =>
          let artifact_refs := p.artifact_refs.getD []
          match (if artifact_refs ≠ [] then
              validate_refs artifact_refs s.artifacts "Artifact reference" else none) with
          | some e => (error_response e, s)
          | none =>
            match story.versions.filter (fun v => v.status == "backlog") with
            | [] =>
              (error_response ("Story " ++ story_id ++
                " has no backlog version to supersede"), s)
            | current_version :: _ =>
              let cur' := supersededStoryVersion current_version ts
              let new_version : StoryVersion := newStoryVersion p release_ref description ts
                (maxVer StoryVersion.version story.versions + 1) current_version
              let newVersions :=
                replaceFirst (fun v => v.status == "backlog") cur' story.versions
                  ++ [new_version]
              let story' := { story with versions := newVersions }
              (success_response ("Story " ++ story_id ++ " version created"),
                { s with stories :=
                    replaceFirst (fun st => st.id == story_id) story' s.stories })
  | _, _, _ =>
    (error_response "Missing required fields: story_id, release_ref, description", s)

/-- `set_story_status` — mirrors `set_epic_version_status`. -/
def set_story_status (p : SetStoryStatusPayload) (ts : String) (s : Store) :
    MResult × Store :=
  match p.story_id, p.status with
  | some story_id, some new_status =>
    if ¬ (new_status = "backlog" ∨ new_status = "released" ∨ new_status = "discarded") then
      (error_response ("Invalid status: " ++ new_status ++
        ". Must be one of backlog, released, discarded"), s)
    else
      match find_record_by_id story_id s.stories with
      | none => (error_response ("Story " ++ story_id ++ " not found"), s)
      | some story =>
        match resolveStoryTarget p.version story.versions true with
        | none =>
          if p.version.getD 0 ≠ 0 then
            (error_response ("Story " ++ story_id ++ " version not found"), s)
          else
            (error_response "Operation failed: max() arg is an empty sequence", s)
        | some (version_num, version) =>
          if version.status = "released" ∨ version.status = "discarded" then
            (error_response ("Cannot modify " ++ version.status ++ " version"), s)
          else
            let existing_backlog := story.versions.filter
              (fun v => v.status == "backlog" && v.version != version_num)
            if new_status = "backlog" ∧ existing_backlog ≠ [] then
              (error_response "Cannot set to backlog: another version is already in backlog", s)
            else
              let v' := { version with status := new_status, updated_at := ts }
              let newVersions := replaceFirst (fun v => v == version) v' story.versions
              let story' := { story with versions := newVersions }
              (success_response ("Story " ++ story_id ++ " version status set to " ++
                new_status),
                { s with stories :=
                    replaceFirst (fun st => st.id == story_id) story' s.stories })
  | _, _ => (error_response "Missing required fields: story_id, status", s)

/-- `set_story_approved`: like `set_epic_approved`, plus the completeness
gate when setting `approved = true`: non-empty `acceptance_criteria` and at
least one of `test_intent.failure_modes` / `test_intent.guarantees`. -/
def set_story_approved (p : SetStoryApprovedPayload) (ts : String) (s : Store) :
    MResult × Store :=
  match p.story_id, p.approved with
  | some story_id, some approved =>
    match find_record_by_id story_id s.stories with
    | none => (error_response ("Story " ++ story_id ++ " not found"), s)
    | some story =>
      match resolveStoryTarget p.version story.versions false with
      | none =>
        if p.version.getD 0 ≠ 0 then
          (error_response ("Story " ++ story_id ++ " version not found"), s)
        else
          (error_response ("Story " ++ story_id ++ " has no backlog version"), s)
      | some (_, version) =>
        if version.status ≠ "backlog" then
          (error_response ("Cannot modify approved on " ++ version.status ++ " version"), s)
        else if approved ∧ version.acceptance_criteria = [] then
          (error_response "Cannot approve: missing acceptance_criteria", s)
        else if approved ∧ version.test_intent.failure_modes = [] ∧
            version.test_intent.guarantees = [] then
          (error_response
            "Cannot approve: test_intent must have at least one failure_mode or guarantee", s)
        else
          let v' := { version with approved := approved, updated_at := ts }
          let newVersions := replaceFirst (fun v => v == version) v' story.versions
          let story' := { story with versions := newVersions }
          (success_response ("Story " ++ story_id ++ " approved set"),
            { s with stories :=
                replaceFirst (fun st => st.id == story_id) story' s.stories })
  | _, _ => (error_response "Missing required fields: story_id, approved", s)

/-- `deprecate_story` — mirrors `deprecate_epic`. -/
def deprecate_story (p : StoryIdPayload) (ts : String) (s : Store) :
    MResult × Store :=
  match p.story_id with
  | none => (error_response "Missing required field: story_id", s)
  | some story_id =>
    match find_record_by_id story_id s.stories with
    | none => (error_response ("Story " ++ story_id ++ " not found"), s)
    | some story =>
      if story.status = "deprecated" then
        (error_response ("Story " ++ story_id ++ " is already deprecated"), s)
      else
        let story' := { story with
          status := "deprecated"
          versions := story.versions.map (fun v =>
            if v.status == "backlog" then
              { v with status := "discarded", updated_at := ts }
            else v) }
        (success_response ("Story " ++ story_id ++ " deprecated"),
          { s with stories :=
              replaceFirst (fun st => st.id == story_id) story' s.stories })

/-! ## The operation dispatcher

One constructor per entry of the `OPERATIONS` table in mutate.py. -/

inductive Op where
  | createRelease (p : CreateReleasePayload)
  | setReleaseStatus (p : SetReleaseStatusPayload)
  | addDomainEntry (p : AddDomainEntryPayload)
  | updateDomainEntry (p : UpdateDomainEntryPayload)
  | activateDomainEntry (p : IdPayload)
  | deprecateDomainEntry (p : IdPayload)
  | addRequirement (p : RequirementFields)
  | updateRequirement (p : UpdateRequirementPayload)
  | deprecateRequirement (p : IdPayload)
  | supersedeRequirement (p : SupersedeRequirementPayload)
  | addFeature (p : AddFeaturePayload)
  | updateFeature (p : UpdateFeaturePayload)
  | deprecateFeature (p : IdPayload)
  | addEpic (p : AddEpicPayload)
  | createEpicVersion (p : CreateEpicVersionPayload)
  | setEpicVersionStatus (p : SetEpicVersionStatusPayload)
  | setEpicApproved (p : SetEpicApprovedPayload)
  | deprecateEpic (p : EpicIdPayload)
  | addStory (p : AddStoryPayload)
  | createStoryVersion (p : CreateStoryVersionPayload)
  | setStoryStatus (p : SetStoryStatusPayload)
  | setStoryApproved (p : SetStoryApprovedPayload)
  | deprecateStory (p : StoryIdPayload)

/-- Dispatch one CLI invocation (`main` → `OPERATIONS[name](payload)`). -/
def applyOp (op : Op) (ts : String) (s : Store) : MResult × Store :=
  match op with
  | .createRelease p => create_release p ts s
  | .setReleaseStatus p => set_release_status p ts s
  | .addDomainEntry p => add_domain_entry p ts s
  | .updateDomainEntry p => update_domain_entry p ts s
  | .activateDomainEntry p => activate_domain_entry p ts s
  | .deprecateDomainEntry p => deprecate_domain_entry p ts s
  | .addRequirement p => add_requirement p ts s
  | .updateRequirement p => update_requirement p ts s
  | .deprecateRequirement p => deprecate_requirement p ts s
  | .supersedeRequirement p => supersede_requirement p ts s
  | .addFeature p => add_feature p ts s
  | .updateFeature p => update_feature p ts s
  | .deprecateFeature p => deprecate_feature p ts s
  | .addEpic p => add_epic p ts s
  | .createEpicVersion p => create_epic_version p ts s
  | .setEpicVersionStatus p => set_epic_version_status p ts s
  | .setEpicApproved p => set_epic_approved p ts s
  | .deprecateEpic p => deprecate_epic p ts s
  | .addStory p => add_story p ts s
  | .createStoryVersion p => create_story_version p ts s
  | .setStoryStatus p => set_story_status p ts s
  | .setStoryApproved p => set_story_approved p ts s
  | .deprecateStory p => deprecate_story p ts s

/-- Run a sequence of CLI invocations, each with its own timestamp; each
invocation leaves behind the store it produced (failed operations leave the
files unchanged). -/
def applyOps (ops : List (Op × String)) (s : Store) : Store :=
  ops.foldl (fun st o => (applyOp o.1 o.2 st).2) s

/-! ## Validator (validate.py)

We embed `validate_epics` together with the generic helpers it uses.  The
validator accumulates every violation as an error string; we model the error
list.  Checks that cannot fire in the typed embedding (missing required
fields, non-boolean `approved`, a non-list `refs` value) are noted inline.
`validate_stories` repeats the same version-lineage logic (validate.py lines
280–368) with the identical `supersedes` condition. -/

/-- Ascending sort (the semantics of Python's `sorted` on version numbers),
written structurally so it evaluates in the kernel. -/
def insertSorted (n : Nat) : List Nat → List Nat
  | [] => [n]
  | m :: rest => if n ≤ m then n :: m :: rest else m :: insertSorted n rest

def sortNats (l : List Nat) : List Nat := l.foldr insertSorted []

/-- `validate_id_format` (validator form): one error per record whose id is
missing (empty) or malformed. -/
def vIdFormatErrors (fam : String) (pfx : String) (ids : List String) : List String :=
  ids.flatMap (fun i =>
    if i = "" then ["[" ++ fam ++ "] Record missing id field"]
    else if ¬ seqIdFormatOk pfx i then ["[" ++ fam ++ "] Invalid ID format: " ++ i]
    else [])

/-- `validate_id_uniqueness`: one error per repeated occurrence of an id. -/
def vDupErrors (fam : String) : List String → List String → List String
  | [], _ => []
  | i :: rest, seen =>
    if i ≠ "" then
      (if i ∈ seen then ["[" ++ fam ++ "] Duplicate ID: " ++ i] else []) ++
        vDupErrors fam rest (i :: seen)
    else vDupErrors fam rest seen

/-- `validate_refs` (validator form): accumulates an error for every
unresolved reference, in order. -/
def vRefErrors (src : String) (rid : String) (field : String)
    (refs : List String) (target_ids : List String) (tf : String) : List String :=
  refs.flatMap (fun r =>
    if r ∈ target_ids then []
    else ["[" ++ src ++ "] " ++ rid ++ ": Invalid " ++ field ++ " " ++ r ++
      " (not found in " ++ tf ++ ")"])

/-- The version-monotonicity check: walk the sorted numbers expecting
`1, 2, 3, ...` and emit one error at the first mismatch. -/
def firstMismatch (eid : String) : List Nat → Nat → List String
  | [], _ => []
  | v :: rest, expected =>
    if v ≠ expected then
      ["[epics] " ++ eid ++ ": Version numbers not monotonic"]
    else firstMismatch eid rest (expected + 1)

/-- The per-version loop of `validate_epics`: accumulates the version errors
while threading the `version_nums` list (note: the current version's number
is appended **before** its own `supersedes` check runs) and the backlog
count.  The `approved`-missing/non-bool errors cannot fire in the typed
embedding. -/
def epicVersionChecks (eid : String) (release_ids requirement_ids artifact_ids :
    List String) : List EpicVersion → List Nat → List String × List Nat × Nat
  | [], nums => ([], nums, 0)
  | v :: rest, nums =>
    let nums' := nums ++ [v.version]
    let statusErrs :=
      if v.status ≠ "" ∧
          ¬ (v.status = "backlog" ∨ v.status = "released" ∨ v.status = "discarded") then
        ["[epics] " ++ eid ++ ": Invalid status " ++ v.status ++
          ". Must be backlog, released, or discarded"]
      else []
    let relErrs :=
      match v.release_ref with
      | some r =>
        if r ∈ release_ids then []
        else ["[epics] " ++ eid ++ ": Invalid release_ref " ++ r]
      | none => []
    let reqErrs := vRefErrors ("epics/" ++ eid) eid "requirement_refs"
      v.requirement_refs requirement_ids "requirements"
    let artErrs := vRefErrors ("epics/" ++ eid) eid "artifact_refs"
      v.artifact_refs artifact_ids "artifacts"
    let supErrs :=
      match v.supersedes with
      | some sn =>
        if sn ∉ nums' ∧ sn ≥ v.version then
          ["[epics] " ++ eid ++ ": Invalid supersedes"]
        else []
      | none => []
    let (restErrs, numsF, bc) :=
      epicVersionChecks eid release_ids requirement_ids artifact_ids rest nums'
    (statusErrs ++ relErrs ++ reqErrs ++ artErrs ++ supErrs ++ restErrs,
      numsF, (if v.status = "backlog" then 1 else 0) + bc)

/-- The per-epic body of the `for epic in epics` loop in `validate_epics`
(the required-fields check cannot fire in the typed embedding). -/
def epicChecks (feature_ids release_ids requirement_ids artifact_ids : List String)
    (e : Epic) : List String :=
  let statusErrs :=
    if e.status ≠ "" ∧ ¬ (e.status = "active" ∨ e.status = "deprecated") then
      ["[epics] " ++ e.id ++ ": Invalid artifact status " ++ e.status ++
        ". Must be active or deprecated"]
    else []
  let featErrs :=
    if e.feature_ref ≠ "" ∧ e.feature_ref ∉ feature_ids then
      ["[epics] " ++ e.id ++ ": Invalid feature_ref " ++ e.feature_ref]
    else []
  let emptyErrs :=
    if e.versions = [] then
      ["[epics] " ++ e.id ++ ": Must have at least one version"]
    else []
  let (vErrs, nums, backlog_count) :=
    epicVersionChecks e.id release_ids requirement_ids artifact_ids e.versions []
  let backlogErrs :=
    if backlog_count > 1 then
      ["[epics] " ++ e.id ++ ": Only one version can have status backlog"]
    else []
  let monoErrs :=
    if nums ≠ [] then firstMismatch e.id (sortNats nums) 1 else []
  statusErrs ++ featErrs ++ emptyErrs ++ vErrs ++ backlogErrs ++ monoErrs

/-- `validate_epics`: all errors the validator accumulates for the epics
family, given the cross-family id sets. -/
def validate_epics (epics : List Epic) (feature_ids release_ids requirement_ids
    artifact_ids : List String) : List String :=
  vIdFormatErrors "epics" "EPIC" (epics.map (fun e => e.id)) ++
    vDupErrors "epics" (epics.map (fun e => e.id)) [] ++
    (epics.map (epicChecks feature_ids release_ids requirement_ids artifact_ids)).flatten

/-! ## General lemmas about the helpers -/

@[simp] theorem isErr_error_response (m : String) :
    (error_response m).isErr = true := rfl

@[simp] theorem isErr_success_response (m : String) :
    (success_response m).isErr = false := rfl

/-- Each mutation operation either leaves the store untouched or succeeds:
the in-memory mutation and the file write happen only after every check has
passed. -/
theorem create_release_cases (p : CreateReleasePayload) (ts : String) (s : Store) :
    (create_release p ts s).2 = s ∨ (create_release p ts s).1.isErr = false := by
  simp only [create_release]
  repeat' split
  all_goals simp

theorem set_release_status_cases (p : SetReleaseStatusPayload) (ts : String) (s : Store) :
    (set_release_status p ts s).2 = s ∨ (set_release_status p ts s).1.isErr = false := by
  simp only [set_release_status]
  repeat' split
  all_goals simp

theorem add_domain_entry_cases (p : AddDomainEntryPayload) (ts : String) (s : Store) :
    (add_domain_entry p ts s).2 = s ∨ (add_domain_entry p ts s).1.isErr = false := by
  simp only [add_domain_entry]
  repeat' split
  all_goals simp

theorem update_domain_entry_cases (p : UpdateDomainEntryPayload) (ts : String) (s : Store) :
    (update_domain_entry p ts s).2 = s ∨ (update_domain_entry p ts s).1.isErr = false := by
  simp only [update_domain_entry]
  repeat' split
  all_goals simp

theorem activate_domain_entry_cases (p : IdPayload) (ts : String) (s : Store) :
    (activate_domain_entry p ts s).2 = s ∨ (activate_domain_entry p ts s).1.isErr = false := by
  simp only [activate_domain_entry]
  repeat' split
  all_goals simp

theorem deprecate_domain_entry_cases (p : IdPayload) (ts : String) (s : Store) :
    (deprecate_domain_entry p ts s).2 = s ∨ (deprecate_domain_entry p ts s).1.isErr = false := by
  simp only [deprecate_domain_entry]
  repeat' split
  all_goals simp

theorem add_requirement_cases (p : RequirementFields) (ts : String) (s : Store) :
    (add_requirement p ts s).2 = s ∨ (add_requirement p ts s).1.isErr = false := by
  simp only [add_requirement]
  repeat' split
  all_goals simp

theorem update_requirement_cases (p : UpdateRequirementPayload) (ts : String) (s : Store) :
    (update_requirement p ts s).2 = s ∨ (update_requirement p ts s).1.isErr = false := by
  simp only [update_requirement]
  repeat' split
  all_goals simp

theorem deprecate_requirement_cases (p : IdPayload) (ts : String) (s : Store) :
    (deprecate_requirement p ts s).2 = s ∨ (deprecate_requirement p ts s).1.isErr = false := by
  simp only [deprecate_requirement]
  repeat' split
  all_goals simp

theorem supersede_requirement_cases (p : SupersedeRequirementPayload) (ts : String) (s : Store) :
    (supersede_requirement p ts s).2 = s ∨ (supersede_requirement p ts s).1.isErr = false := by
  simp only [supersede_requirement]
  repeat' split
  all_goals simp

theorem add_feature_cases (p : AddFeaturePayload) (ts : String) (s : Store) :
    (add_feature p ts s).2 = s ∨ (add_feature p ts s).1.isErr = false := by
  simp only [add_feature]
  repeat' split
  all_goals simp

theorem update_feature_cases (p : UpdateFeaturePayload) (ts : String) (s : Store) :
    (update_feature p ts s).2 = s ∨ (update_feature p ts s).1.isErr = false := by
  simp only [update_feature]
  repeat' split
  all_goals simp

theorem deprecate_feature_cases (p : IdPayload) (ts : String) (s : Store) :
    (deprecate_feature p ts s).2 = s ∨ (deprecate_feature p ts s).1.isErr = false := by
  simp only [deprecate_feature]
  repeat' split
  all_goals simp

theorem add_epic_cases (p : AddEpicPayload) (ts : String) (s : Store) :
    (add_epic p ts s).2 = s ∨ (add_epic p ts s).1.isErr = false := by
  simp only [add_epic]
  repeat' split
  all_goals simp

theorem create_epic_version_cases (p : CreateEpicVersionPayload) (ts : String) (s : Store) :
    (create_epic_version p ts s).2 = s ∨ (create_epic_version p ts s).1.isErr = false := by
  simp only [create_epic_version]
  repeat' split
  all_goals simp

theorem set_epic_version_status_cases (p : SetEpicVersionStatusPayload) (ts : String) (s : Store) :
    (set_epic_version_status p ts s).2 = s ∨
      (set_epic_version_status p ts s).1.isErr = false := by
  simp only [set_epic_version_status]
  repeat' split
  all_goals simp

theorem set_epic_approved_cases (p : SetEpicApprovedPayload) (ts : String) (s : Store) :
    (set_epic_approved p ts s).2 = s ∨ (set_epic_approved p ts s).1.isErr = false := by
  simp only [set_epic_approved]
  repeat' split
  all_goals simp

theorem deprecate_epic_cases (p : EpicIdPayload) (ts : String) (s : Store) :
    (deprecate_epic p ts s).2 = s ∨ (deprecate_epic p ts s).1.isErr = false := by
  simp only [deprecate_epic]
  repeat' split
  all_goals simp

theorem add_story_cases (p : AddStoryPayload) (ts : String) (s : Store) :
    (add_story p ts s).2 = s ∨ (add_story p ts s).1.isErr = false := by
  simp only [add_story]
  repeat' split
  all_goals simp

theorem create_story_version_cases (p : CreateStoryVersionPayload) (ts : String) (s : Store) :
    (create_story_version p ts s).2 = s ∨ (create_story_version p ts s).1.isErr = false := by
  simp only [create_story_version]
  repeat' split
  all_goals simp

theorem set_story_status_cases (p : SetStoryStatusPayload) (ts : String) (s : Store) :
    (set_story_status p ts s).2 = s ∨ (set_story_status p ts s).1.isErr = false := by
  simp only [set_story_status]
  repeat' split
  all_goals simp

theorem set_story_approved_cases (p : SetStoryApprovedPayload) (ts : String) (s : Store) :
    (set_story_approved p ts s).2 = s ∨ (set_story_approved p ts s).1.isErr = false := by
  simp only [set_story_approved]
  repeat' split
  all_goals simp

theorem deprecate_story_cases (p : StoryIdPayload) (ts : String) (s : Store) :
    (deprecate_story p ts s).2 = s ∨ (deprecate_story p ts s).1.isErr = false := by
  simp only [deprecate_story]
  repeat' split
  all_goals simp

theorem applyOp_cases (op : Op) (ts : String) (s : Store) :
    (applyOp op ts s).2 = s ∨ (applyOp op ts s).1.isErr = false := by
  cases op with
  | createRelease p => exact create_release_cases p ts s
  | setReleaseStatus p => exact set_release_status_cases p ts s
  | addDomainEntry p => exact add_domain_entry_cases p ts s
  | updateDomainEntry p => exact update_domain_entry_cases p ts s
  | activateDomainEntry p => exact activate_domain_entry_cases p ts s
  | deprecateDomainEntry p => exact deprecate_domain_entry_cases p ts s
  | addRequirement p => exact add_requirement_cases p ts s
  | updateRequirement p => exact update_requirement_cases p ts s
  | deprecateRequirement p => exact deprecate_requirement_cases p ts s
  | supersedeRequirement p => exact supersede_requirement_cases p ts s
  | addFeature p => exact add_feature_cases p ts s
  | updateFeature p => exact update_feature_cases p ts s
  | deprecateFeature p => exact deprecate_feature_cases p ts s
  | addEpic p => exact add_epic_cases p ts s
  | createEpicVersion p => exact create_epic_version_cases p ts s
  | setEpicVersionStatus p => exact set_epic_version_status_cases p ts s
  | setEpicApproved p => exact set_epic_approved_cases p ts s
  | deprecateEpic p => exact deprecate_epic_cases p ts s
  | addStory p => exact add_story_cases p ts s
  | createStoryVersion p => exact create_story_version_cases p ts s
  | setStoryStatus p => exact set_story_status_cases p ts s
  | setStoryApproved p => exact set_story_approved_cases p ts s
  | deprecateStory p => exact deprecate_story_cases p ts s

/-! ## Decomposition lemmas for first-match search and replacement -/

theorem replaceFirst_of_forall_false {α : Type} {p : α → Bool} {l : List α}
    (new : α) (h : ∀ y ∈ l, p y = false) : replaceFirst p new l = l := by
  induction l with
  | nil => rfl
  | cons x xs ih =>
    have hx := h x (by simp)
    simp only [replaceFirst, hx]
    simp only [Bool.false_eq_true, if_false, List.cons.injEq, true_and]
    exact ih (fun y hy => h y (by simp [hy]))

theorem replaceFirst_append_cons {α : Type} {p : α → Bool} (new : α)
    {l1 : List α} {x : α} {l2 : List α}
    (h1 : ∀ y ∈ l1, p y = false) (hx : p x = true) :
    replaceFirst p new (l1 ++ x :: l2) = l1 ++ new :: l2 := by
  induction l1 with
  | nil => simp [replaceFirst, hx]
  | cons a as ih =>
    have ha := h1 a (by simp)
    simp only [List.cons_append, replaceFirst, ha, Bool.false_eq_true, if_false,
      List.cons.injEq, true_and]
    exact ih (fun y hy => h1 y (by simp [hy]))

theorem mem_replaceFirst {α : Type} {p : α → Bool} {new y : α} {l : List α}
    (h : y ∈ replaceFirst p new l) : y = new ∨ y ∈ l := by
  induction l with
  | nil => cases h
  | cons x xs ih =>
    simp only [replaceFirst] at h
    by_cases hp : p x = true
    · rw [if_pos hp] at h
      rcases List.mem_cons.mp h with rfl | h2
      · exact Or.inl rfl
      · exact Or.inr (List.mem_cons_of_mem _ h2)
    · rw [if_neg hp] at h
      rcases List.mem_cons.mp h with rfl | h2
      · exact Or.inr (List.mem_cons_self _ _)
      · rcases ih h2 with h3 | h3
        · exact Or.inl h3
        · exact Or.inr (List.mem_cons_of_mem _ h3)

theorem filter_eq_cons_decomp {α : Type} {p : α → Bool} :
    ∀ {l : List α} {x : α} {tl : List α}, l.filter p = x :: tl →
      ∃ l1 l2, l = l1 ++ x :: l2 ∧ (∀ y ∈ l1, p y = false) ∧ p x = true ∧
        l2.filter p = tl := by
  intro l
  induction l with
  | nil => intro x tl h; cases h
  | cons a as ih =>
    intro x tl h
    by_cases ha : p a = true
    · rw [List.filter_cons_of_pos ha] at h
      obtain ⟨rfl, rfl⟩ : a = x ∧ as.filter p = tl := by
        constructor <;> [exact (List.cons.injEq _ _ _ _ ▸ h).1;
          exact (List.cons.injEq _ _ _ _ ▸ h).2]
      exact ⟨[], as, by simp, by simp, ha, rfl⟩
    · have ha' : p a = false := by simpa using ha
      rw [List.filter_cons_of_neg (by simp [ha'])] at h
      obtain ⟨l1, l2, rfl, h1, h2, h3⟩ := ih h
      exact ⟨a :: l1, l2, by simp, by
        intro y hy
        rcases List.mem_cons.mp hy with rfl | hy
        · exact ha'
        · exact h1 y hy, h2, h3⟩

theorem exists_first_decomp {α : Type} {p : α → Bool} {l : List α} {x : α}
    (hx : x ∈ l) (hp : p x = true) :
    ∃ l1 x' l2, l = l1 ++ x' :: l2 ∧ p x' = true ∧ ∀ y ∈ l1, p y = false := by
  induction l with
  | nil => cases hx
  | cons a as ih =>
    by_cases ha : p a = true
    · exact ⟨[], a, as, rfl, ha, by simp⟩
    · have ha' : p a = false := by simpa using ha
      have hxas : x ∈ as := by
        rcases List.mem_cons.mp hx with rfl | h
        · rw [hp] at ha'; cases ha'
        · exact h
      obtain ⟨l1, x', l2, rfl, h2, h3⟩ := ih hxas
      exact ⟨a :: l1, x', l2, rfl, h2, by
        intro y hy
        rcases List.mem_cons.mp hy with rfl | hy
        · exact ha'
        · exact h3 y hy⟩

theorem find_record_decomp {α : Type} [HasId α] {rid : String} {l : List α} {x : α}
    (h : find_record_by_id rid l = some x) :
    HasId.idOf x = rid ∧
      ∃ l1 l2, l = l1 ++ x :: l2 ∧ ∀ y ∈ l1, HasId.idOf y ≠ rid := by
  unfold find_record_by_id at h
  rw [List.find?_eq_some] at h
  obtain ⟨hpx, l1, l2, rfl, hl1⟩ := h
  refine ⟨by simpa using hpx, l1, l2, rfl, ?_⟩
  intro y hy
  have := hl1 y hy
  simpa using this

theorem find_record_of_decomp {α : Type} [HasId α] {rid : String}
    {l1 l2 : List α} {x : α} (h1 : ∀ y ∈ l1, HasId.idOf y ≠ rid)
    (hx : HasId.idOf x = rid) :
    find_record_by_id rid (l1 ++ x :: l2) = some x := by
  unfold find_record_by_id
  induction l1 with
  | nil => simp [List.find?_cons, hx]
  | cons a as ih =>
    have ha := h1 a (by simp)
    have hb : (HasId.idOf a == rid) = false := by simpa using ha
    simp only [List.cons_append, List.find?_cons, hb]
    exact ih (fun y hy => h1 y (by simp [hy]))

/-! ## Bounds for `maxVer` and `generate_id` -/

theorem foldl_max_le_init {α : Type} (ver : α → Nat) :
    ∀ (l : List α) (a : Nat), a ≤ l.foldl (fun m v => max m (ver v)) a := by
  intro l
  induction l with
  | nil => intro a; simp
  | cons x xs ih =>
    intro a
    calc a ≤ max a (ver x) := Nat.le_max_left _ _
    _ ≤ xs.foldl (fun m v => max m (ver v)) (max a (ver x)) := ih _

theorem le_foldl_max {α : Type} (ver : α → Nat) :
    ∀ (l : List α) (a : Nat) (v : α), v ∈ l →
      ver v ≤ l.foldl (fun m w => max m (ver w)) a := by
  intro l
  induction l with
  | nil => intro a v h; cases h
  | cons x xs ih =>
    intro a v h
    rcases List.mem_cons.mp h with rfl | h2
    · exact le_trans (Nat.le_max_right a (ver v)) (foldl_max_le_init ver xs _)
    · exact ih _ v h2

theorem le_maxVer {α : Type} (ver : α → Nat) {l : List α} {v : α} (h : v ∈ l) :
    ver v ≤ maxVer ver l :=
  le_foldl_max ver l 0 v h

/-- The fold inside `generate_id` is a plain max-fold of the parsed numbers
(with 0 for non-matching ids). -/
theorem genfold_eq {α : Type} [HasId α] (pfx : String) (l : List α) (a : Nat) :
    l.foldl (fun m r => match parseSeqId pfx (HasId.idOf r) with
      | some n => max m n
      | none => m) a =
    l.foldl (fun m r => max m (match parseSeqId pfx (HasId.idOf r) with
      | some n => n
      | none => 0)) a := by
  induction l generalizing a with
  | nil => rfl
  | cons x xs ih =>
    simp only [List.foldl_cons]
    cases hp : parseSeqId pfx (HasId.idOf x) <;> simp [hp, ih]

/-- Any parsed sequential number among the records is bounded by the maximum
that `generate_id` computes. -/
theorem parse_le_genfold {α : Type} [HasId α] (pfx : String) {l : List α}
    {r : α} {k : Nat} (hmem : r ∈ l)
    (hparse : parseSeqId pfx (HasId.idOf r) = some k) :
    k ≤ l.foldl (fun m r => match parseSeqId pfx (HasId.idOf r) with
      | some n => max m n
      | none => m) 0 := by
  rw [genfold_eq]
  have h := le_foldl_max (fun r => match parseSeqId pfx (HasId.idOf r) with
    | some n => n
    | none => 0) l 0 r hmem
  simp only [hparse] at h
  exact h

/-! ## Claim theorems -/

/-- Claim C7: every mutation operation is atomic.  If the operation returns
an error result then the store (all six family files) is left exactly
unchanged; this covers all 23 operations of the `OPERATIONS` table, including
the two-record `supersede_requirement` transaction. -/
theorem claim7_atomicity (op : Op) (ts : String) (s : Store)
    (h : (applyOp op ts s).1.isErr = true) : (applyOp op ts s).2 = s := by
  rcases applyOp_cases op ts s with h2 | h2
  · exact h2
  · rw [h2] at h; cases h

/-- Witness for C7 at a concrete input: `set_release_status` with an empty
payload fails and leaves the (empty) store unchanged. -/
theorem claim7_atomicity_witness :
    (applyOp (Op.setReleaseStatus ⟨none, none⟩) "2025-01-01T00:00:00Z"
        ⟨[], [], [], [], [], []⟩).1.isErr = true ∧
      (applyOp (Op.setReleaseStatus ⟨none, none⟩) "2025-01-01T00:00:00Z"
        ⟨[], [], [], [], [], []⟩).2 = ⟨[], [], [], [], [], []⟩ :=
  ⟨rfl, claim7_atomicity _ _ _ rfl⟩

/-! ## Identifier uniqueness (claim C9) -/

/-- No two records of one family collection share an id. -/
def famUnique {α : Type} [HasId α] (l : List α) : Prop :=
  (l.map (fun r => HasId.idOf r)).Nodup

/-- Id uniqueness across all six families. -/
structure UniqueIds (s : Store) : Prop where
  rel : famUnique s.releases
  art : famUnique s.artifacts
  req : famUnique s.requirements
  feat : famUnique s.features
  epic : famUnique s.epics
  story : famUnique s.stories

/-- `generate_id` never returns an id already present in the collection. -/
theorem generate_id_fresh {α : Type} [HasId α] (family : String) (data : List α) :
    id_exists (generate_id family data) data = false := by
  unfold id_exists generate_id
  rw [List.any_eq_false]
  intro r hr hbeq
  have heq := eq_of_beq hbeq
  have hparse : parseSeqId (ID_PREFIXES family) (HasId.idOf r) =
      some (data.foldl (fun m r => match parseSeqId (ID_PREFIXES family) (HasId.idOf r) with
        | some n => max m n
        | none => m) 0 + 1) := by
    rw [heq]
    exact parseSeqId_roundtrip (ID_PREFIXES family) _
  have hle := parse_le_genfold (ID_PREFIXES family) hr hparse
  omega

theorem famUnique_append {α : Type} [HasId α] {l : List α} {rec : α}
    (h : famUnique l) (hex : id_exists (HasId.idOf rec) l = false) :
    famUnique (l ++ [rec]) := by
  unfold famUnique at *
  rw [List.map_append, List.nodup_append]
  refine ⟨h, by simp, ?_⟩
  intro a ha
  simp only [List.map_cons, List.map_nil, List.mem_singleton]
  intro hb
  subst hb
  simp only [List.mem_map] at ha
  obtain ⟨r, hr, hrid⟩ := ha
  unfold id_exists at hex
  rw [List.any_eq_false] at hex
  exact hex r hr (by simp [hrid])

theorem map_replaceFirst_eq {α β : Type} (f : α → β) (p : α → Bool) (new : α) :
    ∀ (l : List α), (∀ x ∈ l, p x = true → f new = f x) →
      (replaceFirst p new l).map f = l.map f := by
  intro l
  induction l with
  | nil => intro _; rfl
  | cons x xs ih =>
    intro hid
    simp only [replaceFirst]
    by_cases hp : p x = true
    · rw [if_pos hp]
      simp only [List.map_cons]
      rw [hid x (by simp) hp]
    · rw [if_neg hp]
      simp only [List.map_cons]
      rw [ih (fun y hy hpy => hid y (by simp [hy]) hpy)]

theorem famUnique_replaceFirst {α : Type} [HasId α] {p : α → Bool} {new : α}
    {l : List α} (h : famUnique l)
    (hid : ∀ x ∈ l, p x = true → HasId.idOf new = HasId.idOf x) :
    famUnique (replaceFirst p new l) := by
  unfold famUnique at *
  rw [map_replaceFirst_eq _ _ _ _ hid]
  exact h

theorem find_record_append_left {α : Type} [HasId α] {rid : String}
    {l : List α} {x : α} (l' : List α) (h : find_record_by_id rid l = some x) :
    find_record_by_id rid (l ++ l') = some x := by
  obtain ⟨hid, l1, l2, rfl, hl1⟩ := find_record_decomp h
  rw [List.append_assoc, List.cons_append]
  exact find_record_of_decomp hl1 hid

/-- Replacing the record found by `find_record_by_id` with a record carrying
the same id preserves family-level id uniqueness. -/
theorem famUnique_replace_find {α : Type} [HasId α] {l : List α} {rid : String}
    {found new : α} {p : α → Bool} (hp : ∀ x, p x = (HasId.idOf x == rid))
    (h : famUnique l) (hfind : find_record_by_id rid l = some found)
    (hnew : HasId.idOf new = HasId.idOf found) :
    famUnique (replaceFirst p new l) := by
  apply famUnique_replaceFirst h
  intro x _ hpx
  rw [hp x] at hpx
  have hxid : HasId.idOf x = rid := eq_of_beq hpx
  rw [hnew, (find_record_decomp hfind).1, hxid]

/-! Per-operation preservation of id uniqueness. -/

theorem create_release_uniq (p : CreateReleasePayload) (ts : String) (s : Store)
    (h : UniqueIds s) : UniqueIds (create_release p ts s).2 := by
  simp only [create_release]
  repeat' split
  all_goals try exact h
  all_goals rename ¬ id_exists _ _ = true => hex
  all_goals exact ⟨famUnique_append h.rel (by simpa using hex), h.art, h.req, h.feat, h.epic, h.story⟩

theorem set_release_status_uniq (p : SetReleaseStatusPayload) (ts : String) (s : Store)
    (h : UniqueIds s) : UniqueIds (set_release_status p ts s).2 := by
  simp only [set_release_status]
  repeat' split
  all_goals try exact h
  all_goals rename find_record_by_id _ _ = some _ => hfind
  all_goals exact ⟨famUnique_replace_find (fun _ => rfl) h.rel hfind rfl, h.art, h.req, h.feat,
    h.epic, h.story⟩

theorem add_domain_entry_uniq (p : AddDomainEntryPayload) (ts : String) (s : Store)
    (h : UniqueIds s) : UniqueIds (add_domain_entry p ts s).2 := by
  simp only [add_domain_entry]
  repeat' split
  all_goals try exact h
  all_goals rename ¬ id_exists _ _ = true => hex
  all_goals exact ⟨h.rel, famUnique_append h.art (by simpa using hex), h.req, h.feat, h.epic, h.story⟩

theorem update_domain_entry_uniq (p : UpdateDomainEntryPayload) (ts : String) (s : Store)
    (h : UniqueIds s) : UniqueIds (update_domain_entry p ts s).2 := by
  simp only [update_domain_entry]
  repeat' split
  all_goals try exact h
  all_goals rename find_record_by_id _ _ = some _ => hfind
  all_goals exact ⟨h.rel, famUnique_replace_find (fun _ => rfl) h.art hfind rfl, h.req, h.feat,
    h.epic, h.story⟩

theorem activate_domain_entry_uniq (p : IdPayload) (ts : String) (s : Store)
    (h : UniqueIds s) : UniqueIds (activate_domain_entry p ts s).2 := by
  simp only [activate_domain_entry]
  repeat' split
  all_goals try exact h
  all_goals rename find_record_by_id _ _ = some _ => hfind
  all_goals exact ⟨h.rel, famUnique_replace_find (fun _ => rfl) h.art hfind rfl, h.req, h.feat,
    h.epic, h.story⟩

theorem deprecate_domain_entry_uniq (p : IdPayload) (ts : String) (s : Store)
    (h : UniqueIds s) : UniqueIds (deprecate_domain_entry p ts s).2 := by
  simp only [deprecate_domain_entry]
  repeat' split
  all_goals try exact h
  all_goals rename find_record_by_id _ _ = some _ => hfind
  all_goals exact ⟨h.rel, famUnique_replace_find (fun _ => rfl) h.art hfind rfl, h.req, h.feat,
    h.epic, h.story⟩

theorem add_requirement_uniq (p : RequirementFields) (ts : String) (s : Store)
    (h : UniqueIds s) : UniqueIds (add_requirement p ts s).2 := by
  simp only [add_requirement]
  repeat' split
  all_goals try exact h
  all_goals rename ¬ id_exists _ _ = true => hex
  all_goals exact ⟨h.rel, h.art, famUnique_append h.req (by simpa using hex), h.feat, h.epic, h.story⟩

theorem update_requirement_uniq (p : UpdateRequirementPayload) (ts : String) (s : Store)
    (h : UniqueIds s) : UniqueIds (update_requirement p ts s).2 := by
  simp only [update_requirement]
  repeat' split
  all_goals try exact h
  all_goals rename find_record_by_id _ _ = some _ => hfind
  all_goals exact ⟨h.rel, h.art, famUnique_replace_find (fun _ => rfl) h.req hfind rfl, h.feat,
    h.epic, h.story⟩

theorem deprecate_requirement_uniq (p : IdPayload) (ts : String) (s : Store)
    (h : UniqueIds s) : UniqueIds (deprecate_requirement p ts s).2 := by
  simp only [deprecate_requirement]
  repeat' split
  all_goals try exact h
  all_goals rename find_record_by_id _ _ = some _ => hfind
  all_goals exact ⟨h.rel, h.art, famUnique_replace_find (fun _ => rfl) h.req hfind rfl, h.feat,
    h.epic, h.story⟩

theorem supersede_requirement_uniq (p : SupersedeRequirementPayload) (ts : String)
    (s : Store) (h : UniqueIds s) : UniqueIds (supersede_requirement p ts s).2 := by
  simp only [supersede_requirement]
  repeat' split
  all_goals try exact h
  all_goals rename ¬ id_exists _ _ = true => hex
  all_goals rename find_record_by_id _ _ = some _ => hfind
  all_goals exact ⟨h.rel, h.art,
    famUnique_replace_find (fun _ => rfl)
      (famUnique_append h.req (by simpa using hex))
      (find_record_append_left _ hfind) rfl, h.feat, h.epic, h.story⟩

theorem add_feature_uniq (p : AddFeaturePayload) (ts : String) (s : Store)
    (h : UniqueIds s) : UniqueIds (add_feature p ts s).2 := by
  simp only [add_feature]
  repeat' split
  all_goals try exact h
  all_goals rename ¬ id_exists _ _ = true => hex
  all_goals exact ⟨h.rel, h.art, h.req, famUnique_append h.feat (by simpa using hex), h.epic, h.story⟩

theorem update_feature_uniq (p : UpdateFeaturePayload) (ts : String) (s : Store)
    (h : UniqueIds s) : UniqueIds (update_feature p ts s).2 := by
  simp only [update_feature]
  repeat' split
  all_goals try exact h
  all_goals rename find_record_by_id _ _ = some _ => hfind
  all_goals exact ⟨h.rel, h.art, h.req, famUnique_replace_find (fun _ => rfl) h.feat hfind rfl,
    h.epic, h.story⟩

theorem deprecate_feature_uniq (p : IdPayload) (ts : String) (s : Store)
    (h : UniqueIds s) : UniqueIds (deprecate_feature p ts s).2 := by
  simp only [deprecate_feature]
  repeat' split
  all_goals try exact h
  all_goals rename find_record_by_id _ _ = some _ => hfind
  all_goals exact ⟨h.rel, h.art, h.req, famUnique_replace_find (fun _ => rfl) h.feat hfind rfl,
    h.epic, h.story⟩

theorem add_epic_uniq (p : AddEpicPayload) (ts : String) (s : Store)
    (h : UniqueIds s) : UniqueIds (add_epic p ts s).2 := by
  simp only [add_epic]
  repeat' split
  all_goals try exact h
  all_goals rename ¬ id_exists _ _ = true => hex
  all_goals exact ⟨h.rel, h.art, h.req, h.feat, famUnique_append h.epic (by simpa using hex), h.story⟩

theorem create_epic_version_uniq (p : CreateEpicVersionPayload) (ts : String) (s : Store)
    (h : UniqueIds s) : UniqueIds (create_epic_version p ts s).2 := by
  simp only [create_epic_version]
  repeat' split
  all_goals try exact h
  all_goals rename find_record_by_id _ _ = some _ => hfind
  all_goals exact ⟨h.rel, h.art, h.req, h.feat, famUnique_replace_find (fun _ => rfl) h.epic hfind rfl,
    h.story⟩

theorem set_epic_version_status_uniq (p : SetEpicVersionStatusPayload) (ts : String)
    (s : Store) (h : UniqueIds s) : UniqueIds (set_epic_version_status p ts s).2 := by
  simp only [set_epic_version_status]
  repeat' split
  all_goals try exact h
  all_goals rename find_record_by_id _ _ = some _ => hfind
  all_goals exact ⟨h.rel, h.art, h.req, h.feat,
    famUnique_replace_find (fun _ => rfl) h.epic hfind rfl, h.story⟩

theorem set_epic_approved_uniq (p : SetEpicApprovedPayload) (ts : String) (s : Store)
    (h : UniqueIds s) : UniqueIds (set_epic_approved p ts s).2 := by
  simp only [set_epic_approved]
  repeat' split
  all_goals try exact h
  all_goals rename find_record_by_id _ _ = some _ => hfind
  all_goals exact ⟨h.rel, h.art, h.req, h.feat,
    famUnique_replace_find (fun _ => rfl) h.epic hfind rfl, h.story⟩

theorem deprecate_epic_uniq (p : EpicIdPayload) (ts : String) (s : Store)
    (h : UniqueIds s) : UniqueIds (deprecate_epic p ts s).2 := by
  simp only [deprecate_epic]
  repeat' split
  all_goals try exact h
  all_goals rename find_record_by_id _ _ = some _ => hfind
  all_goals exact ⟨h.rel, h.art, h.req, h.feat, famUnique_replace_find (fun _ => rfl) h.epic hfind rfl,
    h.story⟩

theorem add_story_uniq (p : AddStoryPayload) (ts : String) (s : Store)
    (h : UniqueIds s) : UniqueIds (add_story p ts s).2 := by
  simp only [add_story]
  repeat' split
  all_goals try exact h
  all_goals rename ¬ id_exists _ _ = true => hex
  all_goals exact ⟨h.rel, h.art, h.req, h.feat, h.epic, famUnique_append h.story (by simpa using hex)⟩

theorem create_story_version_uniq (p : CreateStoryVersionPayload) (ts : String) (s : Store)
    (h : UniqueIds s) : UniqueIds (create_story_version p ts s).2 := by
  simp only [create_story_version]
  repeat' split
  all_goals try exact h
  all_goals rename find_record_by_id _ _ = some _ => hfind
  all_goals exact ⟨h.rel, h.art, h.req, h.feat, h.epic,
    famUnique_replace_find (fun _ => rfl) h.story hfind rfl⟩

theorem set_story_status_uniq (p : SetStoryStatusPayload) (ts : String) (s : Store)
    (h : UniqueIds s) : UniqueIds (set_story_status p ts s).2 := by
  simp only [set_story_status]
  repeat' split
  all_goals try exact h
  all_goals rename find_record_by_id _ _ = some _ => hfind
  all_goals exact ⟨h.rel, h.art, h.req, h.feat, h.epic,
    famUnique_replace_find (fun _ => rfl) h.story hfind rfl⟩

theorem set_story_approved_uniq (p : SetStoryApprovedPayload) (ts : String) (s : Store)
    (h : UniqueIds s) : UniqueIds (set_story_approved p ts s).2 := by
  simp only [set_story_approved]
  repeat' split
  all_goals try exact h
  all_goals rename find_record_by_id _ _ = some _ => hfind
  all_goals exact ⟨h.rel, h.art, h.req, h.feat, h.epic,
    famUnique_replace_find (fun _ => rfl) h.story hfind rfl⟩

theorem deprecate_story_uniq (p : StoryIdPayload) (ts : String) (s : Store)
    (h : UniqueIds s) : UniqueIds (deprecate_story p ts s).2 := by
  simp only [deprecate_story]
  repeat' split
  all_goals try exact h
  all_goals rename find_record_by_id _ _ = some _ => hfind
  all_goals exact ⟨h.rel, h.art, h.req, h.feat, h.epic,
    famUnique_replace_find (fun _ => rfl) h.story hfind rfl⟩

theorem applyOp_uniq (op : Op) (ts : String) (s : Store) (h : UniqueIds s) :
    UniqueIds (applyOp op ts s).2 := by
  cases op with
  | createRelease p => exact create_release_uniq p ts s h
  | setReleaseStatus p => exact set_release_status_uniq p ts s h
  | addDomainEntry p => exact add_domain_entry_uniq p ts s h
  | updateDomainEntry p => exact update_domain_entry_uniq p ts s h
  | activateDomainEntry p => exact activate_domain_entry_uniq p ts s h
  | deprecateDomainEntry p => exact deprecate_domain_entry_uniq p ts s h
  | addRequirement p => exact add_requirement_uniq p ts s h
  | updateRequirement p => exact update_requirement_uniq p ts s h
  | deprecateRequirement p => exact deprecate_requirement_uniq p ts s h
  | supersedeRequirement p => exact supersede_requirement_uniq p ts s h
  | addFeature p => exact add_feature_uniq p ts s h
  | updateFeature p => exact update_feature_uniq p ts s h
  | deprecateFeature p => exact deprecate_feature_uniq p ts s h
  | addEpic p => exact add_epic_uniq p ts s h
  | createEpicVersion p => exact create_epic_version_uniq p ts s h
  | setEpicVersionStatus p => exact set_epic_version_status_uniq p ts s h
  | setEpicApproved p => exact set_epic_approved_uniq p ts s h
  | deprecateEpic p => exact deprecate_epic_uniq p ts s h
  | addStory p => exact add_story_uniq p ts s h
  | createStoryVersion p => exact create_story_version_uniq p ts s h
  | setStoryStatus p => exact set_story_status_uniq p ts s h
  | setStoryApproved p => exact set_story_approved_uniq p ts s h
  | deprecateStory p => exact deprecate_story_uniq p ts s h

theorem applyOps_uniq (ops : List (Op × String)) (s : Store) (h : UniqueIds s) :
    UniqueIds (applyOps ops s) := by
  induction ops generalizing s with
  | nil => exact h
  | cons o rest ih => exact ih _ (applyOp_uniq o.1 o.2 s h)

/-- A caller-supplied id that already exists in the collection is rejected
(`add_requirement`, representative of the `create_*` operations). -/
theorem add_requirement_dup_rejected (p : RequirementFields) (ts : String)
    (s : Store) (i : String) (hid : p.id = some i) (hne : i ≠ "")
    (hdup : id_exists i s.requirements = true) :
    (add_requirement p ts s).1.isErr = true := by
  have hgen : idOrGenerate p.id "requirements" s.requirements = i := by
    simp [idOrGenerate, hid, hne]
  simp only [add_requirement]
  repeat' split
  all_goals try rfl
  all_goals rename ¬ id_exists _ _ = true => hex
  all_goals exact absurd (by rw [hgen]; exact hdup) hex

/-- Claim C9: id uniqueness.  (1) `generate_id` always returns an id not
already present in the collection; (2) a caller-supplied duplicate id is
rejected (shown for `add_requirement`, the cited representative); (3) after
any sequence of successful operations — in particular any sequence of
successful `create_*` operations — no two records of any family share an id,
provided no two did initially. -/
theorem claim9_id_uniqueness :
    (∀ {α : Type} [HasId α] (family : String) (data : List α),
        id_exists (generate_id family data) data = false) ∧
    (∀ (p : RequirementFields) (ts : String) (s : Store) (i : String),
        p.id = some i → i ≠ "" → id_exists i s.requirements = true →
        (add_requirement p ts s).1.isErr = true) ∧
    (∀ (ops : List (Op × String)) (s : Store), UniqueIds s →
        UniqueIds (applyOps ops s)) :=
  ⟨fun family data => generate_id_fresh family data,
   fun p ts s i hid hne hdup => add_requirement_dup_rejected p ts s i hid hne hdup,
   fun ops s h => applyOps_uniq ops s h⟩

/-- A sample requirement record used to witness claim C9. -/
def c9req : Requirement :=
  { id := "REQ-001", title := "T", status := "active",
    type := "functional", invariant := false, statement := "S", rationale := "R",
    artifact_refs := [], superseded_by := none, tags := [], owner := "",
    notes := "", created_at := "t0", updated_at := "t0" }

/-- A one-requirement store used to witness claim C9. -/
def c9store : Store :=
  { releases := [], artifacts := [], requirements := [c9req],
    features := [], epics := [], stories := [] }

/-- Witness for C9 at concrete inputs: a fresh generated id on the sample
store, rejection of the duplicate caller-supplied id `REQ-001`, and
uniqueness after an (empty) operation sequence. -/
theorem claim9_id_uniqueness_witness :
    id_exists (generate_id "requirements" c9store.requirements)
        c9store.requirements = false ∧
      (add_requirement ⟨some "REQ-001", some "T2", some "functional", none,
          some "S2", some "R2", none, none, none, none⟩ "t1" c9store).1.isErr = true ∧
      UniqueIds (applyOps [] c9store) :=
  ⟨claim9_id_uniqueness.1 "requirements" c9store.requirements,
   claim9_id_uniqueness.2.1 _ "t1" c9store "REQ-001" rfl (by decide) (by decide),
   claim9_id_uniqueness.2.2 [] c9store
     ⟨by unfold famUnique; decide, by unfold famUnique; decide,
      by unfold famUnique; decide, by unfold famUnique; decide,
      by unfold famUnique; decide, by unfold famUnique; decide⟩⟩

/-! ## Claim C10: deprecate on already-deprecated records -/

/-- Claim C10: `deprecate_domain_entry`, `deprecate_requirement` and
`deprecate_feature` carry no already-deprecated check — on a record whose
status is already `deprecated` they succeed and rewrite the record with
`updated_at` set to the current timestamp — while `deprecate_epic` and
`deprecate_story` reject an already-deprecated record and leave the store
unchanged. -/
theorem claim10_deprecate_idempotency :
    (∀ (i ts : String) (s : Store) (record : Artifact),
        find_record_by_id i s.artifacts = some record →
        record.status = "deprecated" →
        (deprecate_domain_entry ⟨some i⟩ ts s).1.isErr = false ∧
        (deprecate_domain_entry ⟨some i⟩ ts s).2.artifacts =
          replaceFirst (fun r => r.id == i)
            { record with status := "deprecated", updated_at := ts } s.artifacts) ∧
    (∀ (i ts : String) (s : Store) (record : Requirement),
        find_record_by_id i s.requirements = some record →
        record.status = "deprecated" →
        (deprecate_requirement ⟨some i⟩ ts s).1.isErr = false ∧
        (deprecate_requirement ⟨some i⟩ ts s).2.requirements =
          replaceFirst (fun r => r.id == i)
            { record with status := "deprecated", updated_at := ts } s.requirements) ∧
    (∀ (i ts : String) (s : Store) (record : Feature),
        find_record_by_id i s.features = some record →
        record.status = "deprecated" →
        (deprecate_feature ⟨some i⟩ ts s).1.isErr = false ∧
        (deprecate_feature ⟨some i⟩ ts s).2.features =
          replaceFirst (fun r => r.id == i)
            { record with status := "deprecated", updated_at := ts } s.features) ∧
    (∀ (i ts : String) (s : Store) (epic : Epic),
        find_record_by_id i s.epics = some epic → epic.status = "deprecated" →
        (deprecate_epic ⟨some i⟩ ts s).1.isErr = true ∧
        (deprecate_epic ⟨some i⟩ ts s).2 = s) ∧
    (∀ (i ts : String) (s : Store) (story : Story),
        find_record_by_id i s.stories = some story → story.status = "deprecated" →
        (deprecate_story ⟨some i⟩ ts s).1.isErr = true ∧
        (deprecate_story ⟨some i⟩ ts s).2 = s) := by
  refine ⟨?_, ?_, ?_, ?_, ?_⟩
  · intro i ts s record hfind _
    constructor <;> simp [deprecate_domain_entry, hfind]
  · intro i ts s record hfind _
    constructor <;> simp [deprecate_requirement, hfind]
  · intro i ts s record hfind _
    constructor <;> simp [deprecate_feature, hfind]
  · intro i ts s epic hfind hdep
    constructor <;> simp [deprecate_epic, hfind, hdep]
  · intro i ts s story hfind hdep
    constructor <;> simp [deprecate_story, hfind, hdep]

/-- Already-deprecated records of each family, for the C10 witness. -/
def c10art : Artifact :=
  { id := "ART-001", title := "A", status := "deprecated", type := ["policy"],
    source := "src", effective_date := none, doc_path := "d", description := "",
    anchors := [], tags := [], owner := "", notes := "", created_at := "t0",
    updated_at := "t0" }

def c10req : Requirement :=
  { id := "REQ-001", title := "R", status := "deprecated", type := "functional",
    invariant := false, statement := "S", rationale := "Ra", artifact_refs := [],
    superseded_by := none, tags := [], owner := "", notes := "",
    created_at := "t0", updated_at := "t0" }

def c10feat : Feature :=
  { id := "FEAT-001", title := "F", status := "deprecated", purpose := "P",
    business_value := "B", in_scope := [], out_of_scope := [],
    requirement_refs := [], artifact_refs := [], tags := [], owner := "",
    notes := "", created_at := "t0", updated_at := "t0" }

def c10epic : Epic :=
  { id := "EPIC-001", title := "E", status := "deprecated", feature_ref := "FEAT-001",
    tags := [], owner := "", created_at := "t0", versions := [] }

def c10story : Story :=
  { id := "STORY-001", title := "S", status := "deprecated", epic_ref := "EPIC-001",
    tags := [], owner := "", created_at := "t0", versions := [] }

def c10store : Store :=
  { releases := [], artifacts := [c10art], requirements := [c10req],
    features := [c10feat], epics := [c10epic], stories := [c10story] }

/-- Witness for C10 at concrete records that are already deprecated. -/
theorem claim10_deprecate_idempotency_witness :
    (deprecate_domain_entry ⟨some "ART-001"⟩ "t1" c10store).1.isErr = false ∧
    (deprecate_requirement ⟨some "REQ-001"⟩ "t1" c10store).1.isErr = false ∧
    (deprecate_feature ⟨some "FEAT-001"⟩ "t1" c10store).1.isErr = false ∧
    (deprecate_epic ⟨some "EPIC-001"⟩ "t1" c10store).1.isErr = true ∧
    (deprecate_story ⟨some "STORY-001"⟩ "t1" c10store).1.isErr = true :=
  ⟨(claim10_deprecate_idempotency.1 "ART-001" "t1" c10store c10art (by decide) rfl).1,
   (claim10_deprecate_idempotency.2.1 "REQ-001" "t1" c10store c10req (by decide) rfl).1,
   (claim10_deprecate_idempotency.2.2.1 "FEAT-001" "t1" c10store c10feat (by decide) rfl).1,
   (claim10_deprecate_idempotency.2.2.2.1 "EPIC-001" "t1" c10store c10epic (by decide) rfl).1,
   (claim10_deprecate_idempotency.2.2.2.2 "STORY-001" "t1" c10store c10story (by decide) rfl).1⟩

/-! ## Claim C8: status of a freshly created artifact -/

/-- A payload for `add_domain_entry` that explicitly supplies
`status = "active"`. -/
def c8payload : AddDomainEntryPayload :=
  { id := some "ART-001", title := some "T", status := some "active",
    type := some (.list ["policy"]), source := some "S", effective_date := none,
    doc_path := some "D", description := none, anchors := none, tags := none,
    owner := none, notes := none }

def emptyStore : Store :=
  { releases := [], artifacts := [], requirements := [],
    features := [], epics := [], stories := [] }

/-- Counterexample to claim C8 as stated: `add_domain_entry` reads
`payload.get("status", "draft")`, so a payload that supplies a status
overrides the `draft` default — the operation succeeds and the created
record's status is `active`, not `draft`. -/
theorem claim8_counterexample :
    (add_domain_entry c8payload "t0" emptyStore).1.isErr = false ∧
    ((add_domain_entry c8payload "t0" emptyStore).2.artifacts.map
      (fun a => a.status)) = ["active"] ∧ ("active" : String) ≠ "draft" := by
  refine ⟨by decide, by decide, by decide⟩

/-- Claim C8 as amended: when the payload does **not** supply a `status`,
every record `add_domain_entry` successfully creates starts in `draft`, the
initial status of the artifact lifecycle. -/
theorem claim8_draft_default (p : AddDomainEntryPayload) (ts : String) (s : Store)
    (hstat : p.status = none) :
    (add_domain_entry p ts s).1.isErr = true ∨
    ∃ rec : Artifact, (add_domain_entry p ts s).2 =
        { s with artifacts := s.artifacts ++ [rec] } ∧ rec.status = "draft" := by
  simp only [add_domain_entry]
  repeat' split
  all_goals try (left; rfl)
  all_goals right
  all_goals exact ⟨_, rfl, by simp [hstat]⟩

/-- Witness for the amended C8 at a concrete status-free payload. -/
theorem claim8_draft_default_witness :
    (add_domain_entry { c8payload with status := none } "t0" emptyStore).1.isErr = true ∨
    ∃ rec : Artifact, (add_domain_entry { c8payload with status := none } "t0"
        emptyStore).2 = { emptyStore with artifacts := emptyStore.artifacts ++ [rec] } ∧
      rec.status = "draft" :=
  claim8_draft_default _ "t0" emptyStore rfl

/-! ## Claim C4: the story approval gate -/

/-- Resolution of the targeted story version, characterised for the two ways
a backlog version can be targeted (default targeting, or an explicit truthy
version number). -/
theorem resolveStoryTarget_eq {pv : Option Nat} {versions : List StoryVersion}
    {v : StoryVersion} (useMax : Bool)
    (hres : (pv = none ∧ ∃ tail,
        versions.filter (fun w => w.status == "backlog") = v :: tail) ∨
      (∃ n, pv = some n ∧ n ≠ 0 ∧
        versions.find? (fun w => w.version == n) = some v)) :
    resolveStoryTarget pv versions useMax = some (v.version, v) := by
  rcases hres with ⟨hn, tail, hfil⟩ | ⟨n, hn, hne, hfind⟩
  · simp [resolveStoryTarget, hn, hfil]
  · have hv : v.version = n := by
      have := (List.find?_eq_some.mp hfind).1
      simpa using this
    simp [resolveStoryTarget, hn, hne, hfind, hv]

/-- Claim C4: for a story whose targeted version has status `backlog`,
`set_story_approved` with `approved = true` errors and leaves the store
unchanged when the version's `acceptance_criteria` is empty, or when both
`test_intent.failure_modes` and `test_intent.guarantees` are empty;
otherwise it succeeds and sets exactly that version's `approved` flag to
true (stamping `updated_at`). -/
theorem claim4_approval_gate (p : SetStoryApprovedPayload) (ts : String)
    (s : Store) (sid : String) (story : Story) (v : StoryVersion)
    (hsid : p.story_id = some sid) (happ : p.approved = some true)
    (hfind : find_record_by_id sid s.stories = some story)
    (hres : (p.version = none ∧ ∃ tail,
        story.versions.filter (fun w => w.status == "backlog") = v :: tail) ∨
      (∃ n, p.version = some n ∧ n ≠ 0 ∧
        story.versions.find? (fun w => w.version == n) = some v))
    (hv : v.status = "backlog") :
    (v.acceptance_criteria = [] →
      (set_story_approved p ts s).1.isErr = true ∧
        (set_story_approved p ts s).2 = s) ∧
    (v.acceptance_criteria ≠ [] → v.test_intent.failure_modes = [] →
      v.test_intent.guarantees = [] →
      (set_story_approved p ts s).1.isErr = true ∧
        (set_story_approved p ts s).2 = s) ∧
    (v.acceptance_criteria ≠ [] →
      (v.test_intent.failure_modes ≠ [] ∨ v.test_intent.guarantees ≠ []) →
      (set_story_approved p ts s).1.isErr = false ∧
        (set_story_approved p ts s).2.stories =
          replaceFirst (fun st => st.id == sid) { story with versions := replaceFirst (fun w => w == v) { v with approved := true, updated_at := ts } story.versions } s.stories) := by
  have hr := resolveStoryTarget_eq false hres
  refine ⟨?_, ?_, ?_⟩
  · intro hac
    constructor <;> simp [set_story_approved, hsid, happ, hfind, hr, hv, hac]
  · intro hac hfm hg
    constructor <;> simp [set_story_approved, hsid, happ, hfind, hr, hv, hac, hfm, hg]
  · intro hac hti
    rcases hti with hti | hti
    · constructor <;> simp [set_story_approved, hsid, happ, hfind, hr, hv, hac, hti]
    · constructor <;> simp [set_story_approved, hsid, happ, hfind, hr, hv, hac, hti]

/-- A story with one backlog version with empty acceptance criteria, and a
second with complete acceptance data, for the C4 witness. -/
def c4v1 : StoryVersion :=
  { version := 1, status := "backlog", approved := false, release_ref := none,
    description := "d", requirement_refs := [], artifact_refs := [],
    acceptance_criteria := [], test_intent := ⟨[], [], []⟩, supersedes := none,
    created_at := "t0", updated_at := "t0", owner := "", notes := "" }

def c4story1 : Story :=
  { id := "STORY-001", title := "S1", status := "active", epic_ref := "EPIC-001",
    tags := [], owner := "", created_at := "t0", versions := [c4v1] }

def c4v2 : StoryVersion :=
  { version := 1, status := "backlog", approved := false, release_ref := none,
    description := "d", requirement_refs := [], artifact_refs := [],
    acceptance_criteria := ["ac1"], test_intent := ⟨["fm1"], [], []⟩,
    supersedes := none, created_at := "t0", updated_at := "t0", owner := "",
    notes := "" }

def c4story2 : Story :=
  { id := "STORY-002", title := "S2", status := "active", epic_ref := "EPIC-001",
    tags := [], owner := "", created_at := "t0", versions := [c4v2] }

def c4store : Store :=
  { releases := [], artifacts := [], requirements := [], features := [],
    epics := [], stories := [c4story1, c4story2] }

/-- Witness for C4: approving `STORY-001` (no acceptance criteria) fails and
leaves the store unchanged; approving `STORY-002` (complete) succeeds. -/
theorem claim4_approval_gate_witness :
    ((set_story_approved ⟨some "STORY-001", some true, none⟩ "t1" c4store).1.isErr = true ∧
      (set_story_approved ⟨some "STORY-001", some true, none⟩ "t1" c4store).2 = c4store) ∧
    (set_story_approved ⟨some "STORY-002", some true, none⟩ "t1" c4store).1.isErr = false :=
  ⟨(claim4_approval_gate _ "t1" c4store "STORY-001" c4story1 c4v1 rfl rfl (by decide)
      (Or.inl ⟨rfl, [], by decide⟩) rfl).1 rfl,
   ((claim4_approval_gate _ "t1" c4store "STORY-002" c4story2 c4v2 rfl rfl (by decide)
      (Or.inl ⟨rfl, [], by decide⟩) rfl).2.2 (by decide) (Or.inl (by decide))).1⟩

/-! ## Claim C5: the release-open gate -/

theorem validate_release_ref_ne_none {rr : String} {rel : Release}
    {releases : List Release} (hfind : find_record_by_id rr releases = some rel)
    (hterm : rel.status = "released" ∨ rel.status = "superseded") :
    validate_release_ref rr releases ≠ none := by
  simp [validate_release_ref, hfind, hterm]

theorem add_epic_release_gate (p : AddEpicPayload) (ts : String) (s : Store)
    (rr : String) (rel : Release) (hrr : p.release_ref = some rr)
    (hfind : find_record_by_id rr s.releases = some rel)
    (hterm : rel.status = "released" ∨ rel.status = "superseded") :
    (add_epic p ts s).1.isErr = true := by
  have hg : p.release_ref.getD "" = rr := by rw [hrr]; rfl
  simp only [add_epic]
  repeat' split
  all_goals try rfl
  all_goals rename validate_release_ref _ _ = none => hok
  all_goals rw [hg] at hok
  all_goals exact absurd hok (validate_release_ref_ne_none hfind hterm)

theorem add_story_release_gate (p : AddStoryPayload) (ts : String) (s : Store)
    (rr : String) (rel : Release) (hrr : p.release_ref = some rr)
    (hfind : find_record_by_id rr s.releases = some rel)
    (hterm : rel.status = "released" ∨ rel.status = "superseded") :
    (add_story p ts s).1.isErr = true := by
  have hg : p.release_ref.getD "" = rr := by rw [hrr]; rfl
  simp only [add_story]
  repeat' split
  all_goals try rfl
  all_goals rename validate_release_ref _ _ = none => hok
  all_goals rw [hg] at hok
  all_goals exact absurd hok (validate_release_ref_ne_none hfind hterm)

theorem create_epic_version_release_gate (p : CreateEpicVersionPayload)
    (ts : String) (s : Store) (rr : String) (rel : Release)
    (hrr : p.release_ref = some rr)
    (hfind : find_record_by_id rr s.releases = some rel)
    (hterm : rel.status = "released" ∨ rel.status = "superseded") :
    (create_epic_version p ts s).1.isErr = true := by
  simp only [create_epic_version]
  repeat' split
  all_goals try rfl
  all_goals rename p.release_ref = some _ => hpr
  all_goals rename validate_release_ref _ _ = none => hok
  all_goals rw [Option.some.inj (hpr.symm.trans hrr)] at hok
  all_goals exact absurd hok (validate_release_ref_ne_none hfind hterm)

theorem create_story_version_release_gate (p : CreateStoryVersionPayload)
    (ts : String) (s : Store) (rr : String) (rel : Release)
    (hrr : p.release_ref = some rr)
    (hfind : find_record_by_id rr s.releases = some rel)
    (hterm : rel.status = "released" ∨ rel.status = "superseded") :
    (create_story_version p ts s).1.isErr = true := by
  simp only [create_story_version]
  repeat' split
  all_goals try rfl
  all_goals rename p.release_ref = some _ => hpr
  all_goals rename validate_release_ref _ _ = none => hok
  all_goals rw [Option.some.inj (hpr.symm.trans hrr)] at hok
  all_goals exact absurd hok (validate_release_ref_ne_none hfind hterm)

/-- Claim C5 as amended: every operation that attaches a new epic or story
version to a release (`add_epic`, `add_story`, `create_epic_version`,
`create_story_version`) fails when the payload's `release_ref` names a
release whose status is `released` or `superseded` — the two terminal
statuses `validate_release_ref` rejects.  (Under the release lifecycle the
mutation API itself produces — statuses `planned` and `released` only — this
coincides with "fails iff not planned"; a hand-edited status outside the
enum is not rejected, see the counterexample.) -/
theorem claim5_release_open_gate :
    (∀ (p : AddEpicPayload) (ts : String) (s : Store) (rr : String) (rel : Release),
      p.release_ref = some rr → find_record_by_id rr s.releases = some rel →
      (rel.status = "released" ∨ rel.status = "superseded") →
      (add_epic p ts s).1.isErr = true) ∧
    (∀ (p : AddStoryPayload) (ts : String) (s : Store) (rr : String) (rel : Release),
      p.release_ref = some rr → find_record_by_id rr s.releases = some rel →
      (rel.status = "released" ∨ rel.status = "superseded") →
      (add_story p ts s).1.isErr = true) ∧
    (∀ (p : CreateEpicVersionPayload) (ts : String) (s : Store) (rr : String)
      (rel : Release),
      p.release_ref = some rr → find_record_by_id rr s.releases = some rel →
      (rel.status = "released" ∨ rel.status = "superseded") →
      (create_epic_version p ts s).1.isErr = true) ∧
    (∀ (p : CreateStoryVersionPayload) (ts : String) (s : Store) (rr : String)
      (rel : Release),
      p.release_ref = some rr → find_record_by_id rr s.releases = some rel →
      (rel.status = "released" ∨ rel.status = "superseded") →
      (create_story_version p ts s).1.isErr = true) :=
  ⟨add_epic_release_gate, add_story_release_gate,
   create_epic_version_release_gate, create_story_version_release_gate⟩

/-- A release carrying a status outside the lifecycle enum (as a hand-edited
file can), and an epic with a backlog version targeting it. -/
def c5rel : Release :=
  { id := "REL-2025-01-01", title := "R", status := "open",
    release_date := "2025-01-01", description := "D", git_tag := none,
    tags := [], owner := "", notes := "", created_at := "t0", updated_at := "t0" }

def c5epicv : EpicVersion :=
  { version := 1, status := "backlog", approved := false,
    release_ref := some "REL-2025-01-01", summary := "s", assumptions := [],
    constraints := [], requirement_refs := [], artifact_refs := [],
    supersedes := none, created_at := "t0", updated_at := "t0", owner := "",
    notes := "" }

def c5epic : Epic :=
  { id := "EPIC-001", title := "E", status := "active", feature_ref := "FEAT-001",
    tags := [], owner := "", created_at := "t0", versions := [c5epicv] }

def c5store : Store :=
  { releases := [c5rel], artifacts := [], requirements := [], features := [],
    epics := [c5epic], stories := [] }

/-- Counterexample to claim C5 as stated: the release `REL-2025-01-01` has
status `"open"` — not `"planned"` — yet `create_epic_version` targeting it
succeeds, because `validate_release_ref` only rejects statuses `released`
and `superseded`. -/
theorem claim5_counterexample :
    (find_record_by_id "REL-2025-01-01" c5store.releases).map (fun r => r.status) =
        some "open" ∧
      ("open" : String) ≠ "planned" ∧
      (create_epic_version ⟨some "EPIC-001", some "REL-2025-01-01", some "s2",
          none, none, none, none, none, none⟩ "t1" c5store).1.isErr = false := by
  refine ⟨by decide, by decide, by decide⟩

/-- A store whose release has been shipped (`status = "released"`). -/
def c5wrel : Release :=
  { id := "REL-2025-02-01", title := "R", status := "released",
    release_date := "2025-02-01", description := "D", git_tag := none,
    tags := [], owner := "", notes := "", created_at := "t0", updated_at := "t0" }

def c5wstore : Store :=
  { releases := [c5wrel], artifacts := [], requirements := [], features := [],
    epics := [c5epic], stories := [] }

/-- Witness for the amended C5: attaching a new epic version to the released
release fails. -/
theorem claim5_release_open_gate_witness :
    (create_epic_version ⟨some "EPIC-001", some "REL-2025-02-01", some "x",
        none, none, none, none, none, none⟩ "t1" c5wstore).1.isErr = true :=
  claim5_release_open_gate.2.2.1 _ "t1" c5wstore "REL-2025-02-01" c5wrel rfl
    (by decide) (Or.inl rfl)

/-! ## Claim C1: create_epic_version / create_story_version behaviour -/

theorem filter_append_cons_of_first {α : Type} {p : α → Bool} {l1 : List α}
    {x : α} {l2 : List α} (h1 : ∀ y ∈ l1, p y = false) (hx : p x = true) :
    (l1 ++ x :: l2).filter p = x :: l2.filter p := by
  rw [List.filter_append, List.filter_eq_nil_iff.mpr
    (fun y hy => by simp [h1 y hy]), List.filter_cons_of_pos hx, List.nil_append]

/-- Success case of `create_epic_version` on an epic whose first (and, under
the single-backlog invariant, only) backlog version is `v`. -/
theorem create_epic_version_success (p : CreateEpicVersionPayload) (ts : String)
    (s : Store) (eid rr sm : String) (epre epost : List Epic) (e : Epic)
    (vpre vpost : List EpicVersion) (v : EpicVersion)
    (hpid : p.epic_id = some eid) (hrr : p.release_ref = some rr)
    (hsm : p.summary = some sm)
    (hseq : s.epics = epre ++ e :: epost) (hepre : ∀ x ∈ epre, x.id ≠ eid)
    (hie : e.id = eid)
    (hev : e.versions = vpre ++ v :: vpost)
    (hvpre : ∀ w ∈ vpre, w.status ≠ "backlog") (hvstat : v.status = "backlog")
    (hvrel : validate_release_ref rr s.releases = none)
    (hreq : validate_refs (p.requirement_refs.getD []) s.requirements
      "Requirement reference" = none)
    (hart : validate_refs (p.artifact_refs.getD []) s.artifacts
      "Artifact reference" = none) :
    (create_epic_version p ts s).1.isErr = false ∧
    (create_epic_version p ts s).2.epics =
      epre ++ { e with versions := vpre ++ (supersededEpicVersion v ts :: vpost) ++ [newEpicVersion p rr sm ts (maxVer EpicVersion.version e.versions + 1) v] } :: epost := by
  have hfind : find_record_by_id eid s.epics = some e := by
    rw [hseq]
    exact find_record_of_decomp hepre hie
  have hfil : e.versions.filter (fun w => w.status == "backlog") =
      v :: vpost.filter (fun w => w.status == "backlog") := by
    rw [hev]
    exact filter_append_cons_of_first
      (fun w hw => beq_eq_false_iff_ne.mpr (hvpre w hw)) (by simp [hvstat])
  have hreqif : (if p.requirement_refs.getD [] ≠ [] then
      validate_refs (p.requirement_refs.getD []) s.requirements
        "Requirement reference" else none) = none := by
    split
    · exact hreq
    · rfl
  have hartif : (if p.artifact_refs.getD [] ≠ [] then
      validate_refs (p.artifact_refs.getD []) s.artifacts
        "Artifact reference" else none) = none := by
    split
    · exact hart
    · rfl
  have hrep : replaceFirst (fun w => w.status == "backlog")
      (supersededEpicVersion v ts) e.versions =
      vpre ++ supersededEpicVersion v ts :: vpost := by
    rw [hev]
    exact replaceFirst_append_cons _
      (fun w hw => beq_eq_false_iff_ne.mpr (hvpre w hw)) (by simp [hvstat])
  constructor
  · simp [create_epic_version, hpid, hrr, hsm, hfind, hvrel, hreqif, hartif, hfil]
  · simp only [create_epic_version, hpid, hrr, hsm, hfind, hvrel, hreqif, hartif, hfil]
    rw [hrep, hseq]
    rw [replaceFirst_append_cons _
      (fun y hy => beq_eq_false_iff_ne.mpr (hepre y hy)) (by simp [hie])]

/-- Error case of `create_epic_version` when the named epic has no backlog
version: the result is an error and the store is unchanged. -/
theorem create_epic_version_no_backlog (p : CreateEpicVersionPayload)
    (ts : String) (s : Store) (eid : String) (e : Epic)
    (hpid : p.epic_id = some eid)
    (hfind : find_record_by_id eid s.epics = some e)
    (hnb : ∀ w ∈ e.versions, w.status ≠ "backlog") :
    (create_epic_version p ts s).1.isErr = true ∧
      (create_epic_version p ts s).2 = s := by
  simp only [create_epic_version]
  repeat' split
  all_goals try exact ⟨rfl, rfl⟩
  all_goals exfalso
  all_goals rename p.epic_id = some _ => hpe
  all_goals rename find_record_by_id _ _ = some _ => hfe
  all_goals rename List.filter _ _ = _ :: _ => hfil
  all_goals rw [Option.some.inj (hpe.symm.trans hpid)] at hfe
  all_goals rw [Option.some.inj (hfe.symm.trans hfind)] at hfil
  all_goals (
    have hall : ∀ x ∈ List.filter (fun w => w.status == "backlog") e.versions, False := by
      intro x hx
      obtain ⟨hm, hp⟩ := List.mem_filter.mp hx
      exact absurd (eq_of_beq hp) (hnb x hm)
    rw [hfil] at hall
    exact hall _ (List.mem_cons_self _ _))

/-- Success case of `create_story_version`; mirrors the epic case. -/
theorem create_story_version_success (p : CreateStoryVersionPayload) (ts : String)
    (s : Store) (sid rr ds : String) (spre spost : List Story) (st : Story)
    (vpre vpost : List StoryVersion) (v : StoryVersion)
    (hpid : p.story_id = some sid) (hrr : p.release_ref = some rr)
    (hds : p.description = some ds)
    (hseq : s.stories = spre ++ st :: spost) (hspre : ∀ x ∈ spre, x.id ≠ sid)
    (his : st.id = sid)
    (hev : st.versions = vpre ++ v :: vpost)
    (hvpre : ∀ w ∈ vpre, w.status ≠ "backlog") (hvstat : v.status = "backlog")
    (hvrel : validate_release_ref rr s.releases = none)
    (hreq : validate_refs (p.requirement_refs.getD []) s.requirements
      "Requirement reference" = none)
    (hart : validate_refs (p.artifact_refs.getD []) s.artifacts
      "Artifact reference" = none) :
    (create_story_version p ts s).1.isErr = false ∧
    (create_story_version p ts s).2.stories =
      spre ++ { st with versions := vpre ++ (supersededStoryVersion v ts :: vpost) ++ [newStoryVersion p rr ds ts (maxVer StoryVersion.version st.versions + 1) v] } :: spost := by
  have hfind : find_record_by_id sid s.stories = some st := by
    rw [hseq]
    exact find_record_of_decomp hspre his
  have hfil : st.versions.filter (fun w => w.status == "backlog") =
      v :: vpost.filter (fun w => w.status == "backlog") := by
    rw [hev]
    exact filter_append_cons_of_first
      (fun w hw => beq_eq_false_iff_ne.mpr (hvpre w hw)) (by simp [hvstat])
  have hreqif : (if p.requirement_refs.getD [] ≠ [] then
      validate_refs (p.requirement_refs.getD []) s.requirements
        "Requirement reference" else none) = none := by
    split
    · exact hreq
    · rfl
  have hartif : (if p.artifact_refs.getD [] ≠ [] then
      validate_refs (p.artifact_refs.getD []) s.artifacts
        "Artifact reference" else none) = none := by
    split
    · exact hart
    · rfl
  have hrep : replaceFirst (fun w => w.status == "backlog")
      (supersededStoryVersion v ts) st.versions =
      vpre ++ supersededStoryVersion v ts :: vpost := by
    rw [hev]
    exact replaceFirst_append_cons _
      (fun w hw => beq_eq_false_iff_ne.mpr (hvpre w hw)) (by simp [hvstat])
  constructor
  · simp [create_story_version, hpid, hrr, hds, hfind, hvrel, hreqif, hartif, hfil]
  · simp only [create_story_version, hpid, hrr, hds, hfind, hvrel, hreqif, hartif, hfil]
    rw [hrep, hseq]
    rw [replaceFirst_append_cons _
      (fun y hy => beq_eq_false_iff_ne.mpr (hspre y hy)) (by simp [his])]

/-- Error case of `create_story_version` without a backlog version. -/
theorem create_story_version_no_backlog (p : CreateStoryVersionPayload)
    (ts : String) (s : Store) (sid : String) (st : Story)
    (hpid : p.story_id = some sid)
    (hfind : find_record_by_id sid s.stories = some st)
    (hnb : ∀ w ∈ st.versions, w.status ≠ "backlog") :
    (create_story_version p ts s).1.isErr = true ∧
      (create_story_version p ts s).2 = s := by
  simp only [create_story_version]
  repeat' split
  all_goals try exact ⟨rfl, rfl⟩
  all_goals exfalso
  all_goals rename p.story_id = some _ => hps
  all_goals rename find_record_by_id _ _ = some _ => hfe
  all_goals rename List.filter _ _ = _ :: _ => hfil
  all_goals rw [Option.some.inj (hps.symm.trans hpid)] at hfe
  all_goals rw [Option.some.inj (hfe.symm.trans hfind)] at hfil
  all_goals (
    have hall : ∀ x ∈ List.filter (fun w => w.status == "backlog") st.versions, False := by
      intro x hx
      obtain ⟨hm, hp⟩ := List.mem_filter.mp hx
      exact absurd (eq_of_beq hp) (hnb x hm)
    rw [hfil] at hall
    exact hall _ (List.mem_cons_self _ _))

/-- Claim C1: for an epic (resp. story) holding a backlog version and a valid
payload, `create_epic_version` / `create_story_version` succeeds, rewrites
the outgoing backlog version's status to `released` when its `approved` flag
is true and `discarded` otherwise (see `supersededEpicVersion` /
`supersededStoryVersion`), and appends a new version numbered
`max(existing) + 1` with status `backlog`, `approved = false`, and
`supersedes` equal to the outgoing version's number (see `newEpicVersion` /
`newStoryVersion`); when no version has status `backlog`, the operation
returns an error and leaves the store unchanged. -/
theorem claim1_create_version_behavior :
    (∀ (p : CreateEpicVersionPayload) (ts : String) (s : Store)
      (eid rr sm : String) (epre epost : List Epic) (e : Epic)
      (vpre vpost : List EpicVersion) (v : EpicVersion),
      p.epic_id = some eid → p.release_ref = some rr → p.summary = some sm →
      s.epics = epre ++ e :: epost → (∀ x ∈ epre, x.id ≠ eid) → e.id = eid →
      e.versions = vpre ++ v :: vpost → (∀ w ∈ vpre, w.status ≠ "backlog") →
      v.status = "backlog" →
      validate_release_ref rr s.releases = none →
      validate_refs (p.requirement_refs.getD []) s.requirements
        "Requirement reference" = none →
      validate_refs (p.artifact_refs.getD []) s.artifacts
        "Artifact reference" = none →
      (create_epic_version p ts s).1.isErr = false ∧
      (create_epic_version p ts s).2.epics =
        epre ++ { e with versions := vpre ++ (supersededEpicVersion v ts :: vpost) ++ [newEpicVersion p rr sm ts (maxVer EpicVersion.version e.versions + 1) v] } :: epost) ∧
    (∀ (p : CreateEpicVersionPayload) (ts : String) (s : Store) (eid : String)
      (e : Epic),
      p.epic_id = some eid → find_record_by_id eid s.epics = some e →
      (∀ w ∈ e.versions, w.status ≠ "backlog") →
      (create_epic_version p ts s).1.isErr = true ∧
        (create_epic_version p ts s).2 = s) ∧
    (∀ (p : CreateStoryVersionPayload) (ts : String) (s : Store)
      (sid rr ds : String) (spre spost : List Story) (st : Story)
      (vpre vpost : List StoryVersion) (v : StoryVersion),
      p.story_id = some sid → p.release_ref = some rr → p.description = some ds →
      s.stories = spre ++ st :: spost → (∀ x ∈ spre, x.id ≠ sid) → st.id = sid →
      st.versions = vpre ++ v :: vpost → (∀ w ∈ vpre, w.status ≠ "backlog") →
      v.status = "backlog" →
      validate_release_ref rr s.releases = none →
      validate_refs (p.requirement_refs.getD []) s.requirements
        "Requirement reference" = none →
      validate_refs (p.artifact_refs.getD []) s.artifacts
        "Artifact reference" = none →
      (create_story_version p ts s).1.isErr = false ∧
      (create_story_version p ts s).2.stories =
        spre ++ { st with versions := vpre ++ (supersededStoryVersion v ts :: vpost) ++ [newStoryVersion p rr ds ts (maxVer StoryVersion.version st.versions + 1) v] } :: spost) ∧
    (∀ (p : CreateStoryVersionPayload) (ts : String) (s : Store) (sid : String)
      (st : Story),
      p.story_id = some sid → find_record_by_id sid s.stories = some st →
      (∀ w ∈ st.versions, w.status ≠ "backlog") →
      (create_story_version p ts s).1.isErr = true ∧
        (create_story_version p ts s).2 = s) :=
  ⟨create_epic_version_success, create_epic_version_no_backlog,
   create_story_version_success, create_story_version_no_backlog⟩

/-- A planned release, an epic and a story each with a single backlog
version, for the C1 witness. -/
def c1rel : Release :=
  { id := "REL-2025-03-01", title := "R", status := "planned",
    release_date := "2025-03-01", description := "D", git_tag := none,
    tags := [], owner := "", notes := "", created_at := "t0", updated_at := "t0" }

def c1v : EpicVersion :=
  { version := 1, status := "backlog", approved := false,
    release_ref := some "REL-2025-03-01", summary := "s", assumptions := [],
    constraints := [], requirement_refs := [], artifact_refs := [],
    supersedes := none, created_at := "t0", updated_at := "t0", owner := "",
    notes := "" }

def c1epic : Epic :=
  { id := "EPIC-001", title := "E", status := "active", feature_ref := "FEAT-001",
    tags := [], owner := "", created_at := "t0", versions := [c1v] }

def c1sv : StoryVersion :=
  { version := 1, status := "backlog", approved := false,
    release_ref := some "REL-2025-03-01", description := "d",
    requirement_refs := [], artifact_refs := [], acceptance_criteria := [],
    test_intent := ⟨[], [], []⟩, supersedes := none, created_at := "t0",
    updated_at := "t0", owner := "", notes := "" }

def c1story : Story :=
  { id := "STORY-001", title := "S", status := "active", epic_ref := "EPIC-001",
    tags := [], owner := "", created_at := "t0", versions := [c1sv] }

def c1store : Store :=
  { releases := [c1rel], artifacts := [], requirements := [], features := [],
    epics := [c1epic], stories := [c1story] }

def c1pe : CreateEpicVersionPayload :=
  ⟨some "EPIC-001", some "REL-2025-03-01", some "v2",
    none, none, none, none, none, none⟩

def c1ps : CreateStoryVersionPayload :=
  ⟨some "STORY-001", some "REL-2025-03-01", some "d2",
    none, none, none, none, none, none⟩

/-- Witness for C1 at a concrete store: creating a new epic version and a new
story version both succeed. -/
theorem claim1_create_version_behavior_witness :
    (create_epic_version c1pe "t1" c1store).1.isErr = false ∧
    (create_story_version c1ps "t1" c1store).1.isErr = false :=
  ⟨(claim1_create_version_behavior.1 c1pe "t1" c1store "EPIC-001" "REL-2025-03-01"
      "v2" [] [] c1epic [] [] c1v rfl rfl rfl rfl (by simp) rfl rfl (by simp)
      rfl (by decide) rfl rfl).1,
   (claim1_create_version_behavior.2.2.1 c1ps "t1" c1store "STORY-001"
      "REL-2025-03-01" "d2" [] [] c1story [] [] c1sv rfl rfl rfl rfl (by simp)
      rfl rfl (by simp) rfl (by decide) rfl rfl).1⟩

/-! ## Shapes of the epic/story collections after each operation

These characterisations drive the single-backlog (C2) and version-lineage
(C3) invariant proofs. -/

theorem create_release_es (p : CreateReleasePayload) (ts : String) (s : Store) :
    (create_release p ts s).2.epics = s.epics ∧
      (create_release p ts s).2.stories = s.stories := by
  simp only [create_release]
  repeat' split
  all_goals exact ⟨rfl, rfl⟩

theorem set_release_status_es (p : SetReleaseStatusPayload) (ts : String) (s : Store) :
    (set_release_status p ts s).2.epics = s.epics ∧
      (set_release_status p ts s).2.stories = s.stories := by
  simp only [set_release_status]
  repeat' split
  all_goals exact ⟨rfl, rfl⟩

theorem add_domain_entry_es (p : AddDomainEntryPayload) (ts : String) (s : Store) :
    (add_domain_entry p ts s).2.epics = s.epics ∧
      (add_domain_entry p ts s).2.stories = s.stories := by
  simp only [add_domain_entry]
  repeat' split
  all_goals exact ⟨rfl, rfl⟩

theorem update_domain_entry_es (p : UpdateDomainEntryPayload) (ts : String) (s : Store) :
    (update_domain_entry p ts s).2.epics = s.epics ∧
      (update_domain_entry p ts s).2.stories = s.stories := by
  simp only [update_domain_entry]
  repeat' split
  all_goals exact ⟨rfl, rfl⟩

theorem activate_domain_entry_es (p : IdPayload) (ts : String) (s : Store) :
    (activate_domain_entry p ts s).2.epics = s.epics ∧
      (activate_domain_entry p ts s).2.stories = s.stories := by
  simp only [activate_domain_entry]
  repeat' split
  all_goals exact ⟨rfl, rfl⟩

theorem deprecate_domain_entry_es (p : IdPayload) (ts : String) (s : Store) :
    (deprecate_domain_entry p ts s).2.epics = s.epics ∧
      (deprecate_domain_entry p ts s).2.stories = s.stories := by
  simp only [deprecate_domain_entry]
  repeat' split
  all_goals exact ⟨rfl, rfl⟩

theorem add_requirement_es (p : RequirementFields) (ts : String) (s : Store) :
    (add_requirement p ts s).2.epics = s.epics ∧
      (add_requirement p ts s).2.stories = s.stories := by
  simp only [add_requirement]
  repeat' split
  all_goals exact ⟨rfl, rfl⟩

theorem update_requirement_es (p : UpdateRequirementPayload) (ts : String) (s : Store) :
    (update_requirement p ts s).2.epics = s.epics ∧
      (update_requirement p ts s).2.stories = s.stories := by
  simp only [update_requirement]
  repeat' split
  all_goals exact ⟨rfl, rfl⟩

theorem deprecate_requirement_es (p : IdPayload) (ts : String) (s : Store) :
    (deprecate_requirement p ts s).2.epics = s.epics ∧
      (deprecate_requirement p ts s).2.stories = s.stories := by
  simp only [deprecate_requirement]
  repeat' split
  all_goals exact ⟨rfl, rfl⟩

theorem supersede_requirement_es (p : SupersedeRequirementPayload) (ts : String)
    (s : Store) : (supersede_requirement p ts s).2.epics = s.epics ∧
      (supersede_requirement p ts s).2.stories = s.stories := by
  simp only [supersede_requirement]
  repeat' split
  all_goals exact ⟨rfl, rfl⟩

theorem add_feature_es (p : AddFeaturePayload) (ts : String) (s : Store) :
    (add_feature p ts s).2.epics = s.epics ∧
      (add_feature p ts s).2.stories = s.stories := by
  simp only [add_feature]
  repeat' split
  all_goals exact ⟨rfl, rfl⟩

theorem update_feature_es (p : UpdateFeaturePayload) (ts : String) (s : Store) :
    (update_feature p ts s).2.epics = s.epics ∧
      (update_feature p ts s).2.stories = s.stories := by
  simp only [update_feature]
  repeat' split
  all_goals exact ⟨rfl, rfl⟩

theorem deprecate_feature_es (p : IdPayload) (ts : String) (s : Store) :
    (deprecate_feature p ts s).2.epics = s.epics ∧
      (deprecate_feature p ts s).2.stories = s.stories := by
  simp only [deprecate_feature]
  repeat' split
  all_goals exact ⟨rfl, rfl⟩

theorem add_epic_shape (p : AddEpicPayload) (ts : String) (s : Store) :
    (add_epic p ts s).2 = s ∨
    ((add_epic p ts s).2.stories = s.stories ∧
      ∃ rec : Epic, ∃ v1 : EpicVersion, rec.versions = [v1] ∧
        v1.status = "backlog" ∧ v1.version = 1 ∧
        (add_epic p ts s).2.epics = s.epics ++ [rec]) := by
  simp only [add_epic]
  repeat' split
  all_goals try (left; rfl)
  all_goals exact Or.inr ⟨rfl, _, _, rfl, rfl, rfl, rfl⟩

theorem create_epic_version_shape (p : CreateEpicVersionPayload) (ts : String)
    (s : Store) :
    (create_epic_version p ts s).2 = s ∨
    ((create_epic_version p ts s).2.stories = s.stories ∧
      ∃ (eid rr sm : String) (epic : Epic) (cur : EpicVersion)
        (tail : List EpicVersion),
        find_record_by_id eid s.epics = some epic ∧
        epic.versions.filter (fun v => v.status == "backlog") = cur :: tail ∧
        (create_epic_version p ts s).2.epics =
          replaceFirst (fun e => e.id == eid) { epic with versions := replaceFirst (fun v => v.status == "backlog") (supersededEpicVersion cur ts) epic.versions ++ [newEpicVersion p rr sm ts (maxVer EpicVersion.version epic.versions + 1) cur] } s.epics) := by
  simp only [create_epic_version]
  repeat' split
  all_goals try (left; rfl)
  all_goals exact Or.inr ⟨rfl, _, _, _, _, _, _, by assumption, by assumption, rfl⟩

theorem set_epic_version_status_shape (p : SetEpicVersionStatusPayload)
    (ts : String) (s : Store) :
    (set_epic_version_status p ts s).2 = s ∨
    ((set_epic_version_status p ts s).2.stories = s.stories ∧
      ∃ (eid new_status : String) (epic : Epic) (n : Nat) (v : EpicVersion),
        find_record_by_id eid s.epics = some epic ∧
        resolveEpicTarget p.version epic.versions true = some (n, v) ∧
        ¬ (v.status = "released" ∨ v.status = "discarded") ∧
        ¬ ¬ (new_status = "backlog" ∨ new_status = "released" ∨
          new_status = "discarded") ∧
        ¬ (new_status = "backlog" ∧ epic.versions.filter
          (fun w => w.status == "backlog" && w.version != n) ≠ []) ∧
        (set_epic_version_status p ts s).2.epics =
          replaceFirst (fun e => e.id == eid) { epic with versions := replaceFirst (fun w => w == v) { v with status := new_status, updated_at := ts } epic.versions } s.epics) := by
  simp only [set_epic_version_status]
  repeat' split
  all_goals try (left; rfl)
  all_goals exact Or.inr ⟨rfl, _, _, _, _, _, by assumption, by assumption,
    by assumption, by assumption, by assumption, rfl⟩

theorem set_epic_approved_shape (p : SetEpicApprovedPayload) (ts : String)
    (s : Store) :
    (set_epic_approved p ts s).2 = s ∨
    ((set_epic_approved p ts s).2.stories = s.stories ∧
      ∃ (eid : String) (approved : Bool) (epic : Epic) (n : Nat) (v : EpicVersion),
        find_record_by_id eid s.epics = some epic ∧
        resolveEpicTarget p.version epic.versions false = some (n, v) ∧
        (set_epic_approved p ts s).2.epics =
          replaceFirst (fun e => e.id == eid) { epic with versions := replaceFirst (fun w => w == v) { v with approved := approved, updated_at := ts } epic.versions } s.epics) := by
  simp only [set_epic_approved]
  repeat' split
  all_goals try (left; rfl)
  all_goals exact Or.inr ⟨rfl, _, _, _, _, _, by assumption, by assumption, rfl⟩

theorem deprecate_epic_shape (p : EpicIdPayload) (ts : String) (s : Store) :
    (deprecate_epic p ts s).2 = s ∨
    ((deprecate_epic p ts s).2.stories = s.stories ∧
      ∃ (eid : String) (epic : Epic),
        find_record_by_id eid s.epics = some epic ∧
        (deprecate_epic p ts s).2.epics =
          replaceFirst (fun e => e.id == eid) { epic with status := "deprecated", versions := epic.versions.map (fun v => if v.status == "backlog" then { v with status := "discarded", updated_at := ts } else v) } s.epics) := by
  simp only [deprecate_epic]
  repeat' split
  all_goals try (left; rfl)
  all_goals exact Or.inr ⟨rfl, _, _, by assumption, rfl⟩

theorem add_story_shape (p : AddStoryPayload) (ts : String) (s : Store) :
    (add_story p ts s).2 = s ∨
    ((add_story p ts s).2.epics = s.epics ∧
      ∃ rec : Story, ∃ v1 : StoryVersion, rec.versions = [v1] ∧
        v1.status = "backlog" ∧ v1.version = 1 ∧
        (add_story p ts s).2.stories = s.stories ++ [rec]) := by
  simp only [add_story]
  repeat' split
  all_goals try (left; rfl)
  all_goals exact Or.inr ⟨rfl, _, _, rfl, rfl, rfl, rfl⟩

theorem create_story_version_shape (p : CreateStoryVersionPayload) (ts : String)
    (s : Store) :
    (create_story_version p ts s).2 = s ∨
    ((create_story_version p ts s).2.epics = s.epics ∧
      ∃ (sid rr ds : String) (st : Story) (cur : StoryVersion)
        (tail : List StoryVersion),
        find_record_by_id sid s.stories = some st ∧
        st.versions.filter (fun v => v.status == "backlog") = cur :: tail ∧
        (create_story_version p ts s).2.stories =
          replaceFirst (fun x => x.id == sid) { st with versions := replaceFirst (fun v => v.status == "backlog") (supersededStoryVersion cur ts) st.versions ++ [newStoryVersion p rr ds ts (maxVer StoryVersion.version st.versions + 1) cur] } s.stories) := by
  simp only [create_story_version]
  repeat' split
  all_goals try (left; rfl)
  all_goals exact Or.inr ⟨rfl, _, _, _, _, _, _, by assumption, by assumption, rfl⟩

theorem set_story_status_shape (p : SetStoryStatusPayload) (ts : String)
    (s : Store) :
    (set_story_status p ts s).2 = s ∨
    ((set_story_status p ts s).2.epics = s.epics ∧
      ∃ (sid new_status : String) (st : Story) (n : Nat) (v : StoryVersion),
        find_record_by_id sid s.stories = some st ∧
        resolveStoryTarget p.version st.versions true = some (n, v) ∧
        ¬ (v.status = "released" ∨ v.status = "discarded") ∧
        ¬ ¬ (new_status = "backlog" ∨ new_status = "released" ∨
          new_status = "discarded") ∧
        ¬ (new_status = "backlog" ∧ st.versions.filter
          (fun w => w.status == "backlog" && w.version != n) ≠ []) ∧
        (set_story_status p ts s).2.stories =
          replaceFirst (fun x => x.id == sid) { st with versions := replaceFirst (fun w => w == v) { v with status := new_status, updated_at := ts } st.versions } s.stories) := by
  simp only [set_story_status]
  repeat' split
  all_goals try (left; rfl)
  all_goals exact Or.inr ⟨rfl, _, _, _, _, _, by assumption, by assumption,
    by assumption, by assumption, by assumption, rfl⟩

theorem set_story_approved_shape (p : SetStoryApprovedPayload) (ts : String)
    (s : Store) :
    (set_story_approved p ts s).2 = s ∨
    ((set_story_approved p ts s).2.epics = s.epics ∧
      ∃ (sid : String) (approved : Bool) (st : Story) (n : Nat) (v : StoryVersion),
        find_record_by_id sid s.stories = some st ∧
        resolveStoryTarget p.version st.versions false = some (n, v) ∧
        (set_story_approved p ts s).2.stories =
          replaceFirst (fun x => x.id == sid) { st with versions := replaceFirst (fun w => w == v) { v with approved := approved, updated_at := ts } st.versions } s.stories) := by
  simp only [set_story_approved]
  repeat' split
  all_goals try (left; rfl)
  all_goals exact Or.inr ⟨rfl, _, _, _, _, _, by assumption, by assumption, rfl⟩

theorem deprecate_story_shape (p : StoryIdPayload) (ts : String) (s : Store) :
    (deprecate_story p ts s).2 = s ∨
    ((deprecate_story p ts s).2.epics = s.epics ∧
      ∃ (sid : String) (st : Story),
        find_record_by_id sid s.stories = some st ∧
        (deprecate_story p ts s).2.stories =
          replaceFirst (fun x => x.id == sid) { st with status := "deprecated", versions := st.versions.map (fun v => if v.status == "backlog" then { v with status := "discarded", updated_at := ts } else v) } s.stories) := by
  simp only [deprecate_story]
  repeat' split
  all_goals try (left; rfl)
  all_goals exact Or.inr ⟨rfl, _, _, by assumption, rfl⟩

/-! ## Claim C2: the single-backlog invariant -/

/-- The single-backlog property of one `versions[]` array, together with the
distinct-version-numbers property that the amended claim assumes (the
monotonic-lineage invariant guarantees it). -/
structure BacklogInv (s : Store) : Prop where
  epic : ∀ e ∈ s.epics,
    e.versions.countP (fun v => v.status == "backlog") ≤ 1 ∧
      (e.versions.map (fun v => v.version)).Nodup
  story : ∀ st ∈ s.stories,
    st.versions.countP (fun v => v.status == "backlog") ≤ 1 ∧
      (st.versions.map (fun v => v.version)).Nodup

theorem find_record_mem {α : Type} [HasId α] {rid : String} {l : List α} {x : α}
    (h : find_record_by_id rid l = some x) : x ∈ l := by
  obtain ⟨-, l1, l2, rfl, -⟩ := find_record_decomp h
  exact List.mem_append_right _ (List.mem_cons_self _ _)

theorem resolveEpicTarget_mem {pv : Option Nat} {versions : List EpicVersion}
    {useMax : Bool} {n : Nat} {v : EpicVersion}
    (h : resolveEpicTarget pv versions useMax = some (n, v)) :
    v ∈ versions ∧ v.version = n := by
  unfold resolveEpicTarget at h
  repeat' split at h
  all_goals cases h
  · rename List.find? _ _ = some _ => hfind
    exact ⟨List.mem_of_find?_eq_some hfind, eq_of_beq (List.find?_eq_some.mp hfind).1⟩
  · rename List.filter _ _ = _ :: _ => hfil
    refine ⟨List.mem_of_mem_filter (p := fun w => w.status == "backlog") ?_, rfl⟩
    rw [hfil]
    exact List.mem_cons_self _ _
  · rename List.find? _ _ = some _ => hfind
    exact ⟨List.mem_of_find?_eq_some hfind, eq_of_beq (List.find?_eq_some.mp hfind).1⟩

theorem resolveStoryTarget_mem {pv : Option Nat} {versions : List StoryVersion}
    {useMax : Bool} {n : Nat} {v : StoryVersion}
    (h : resolveStoryTarget pv versions useMax = some (n, v)) :
    v ∈ versions ∧ v.version = n := by
  unfold resolveStoryTarget at h
  repeat' split at h
  all_goals cases h
  · rename List.find? _ _ = some _ => hfind
    exact ⟨List.mem_of_find?_eq_some hfind, eq_of_beq (List.find?_eq_some.mp hfind).1⟩
  · rename List.filter _ _ = _ :: _ => hfil
    refine ⟨List.mem_of_mem_filter (p := fun w => w.status == "backlog") ?_, rfl⟩
    rw [hfil]
    exact List.mem_cons_self _ _
  · rename List.find? _ _ = some _ => hfind
    exact ⟨List.mem_of_find?_eq_some hfind, eq_of_beq (List.find?_eq_some.mp hfind).1⟩

/-- After `create_*_version`: at most one backlog version remains (the
appended one), and the version-number list gains one fresh entry. -/
theorem count_le_one_after_create {α : Type} (stat : α → String)
    {versions : List α} {cur : α} {tail : List α} (cur' nv : α)
    (hfil : versions.filter (fun v => stat v == "backlog") = cur :: tail)
    (hcur' : (stat cur' == "backlog") = false)
    (hnv : (stat nv == "backlog") = true)
    (hcount : versions.countP (fun v => stat v == "backlog") ≤ 1) :
    (replaceFirst (fun v => stat v == "backlog") cur' versions ++ [nv]).countP
      (fun v => stat v == "backlog") ≤ 1 := by
  obtain ⟨l1, l2, rfl, h1, hpcur, -⟩ := filter_eq_cons_decomp hfil
  rw [replaceFirst_append_cons _ h1 hpcur]
  have hl1 : l1.countP (fun v => stat v == "backlog") = 0 :=
    List.countP_eq_zero.mpr (by intro a ha; simp [h1 a ha])
  have hl2 : l2.countP (fun v => stat v == "backlog") = 0 := by
    rw [List.countP_append, List.countP_cons, hl1, hpcur, if_pos rfl] at hcount
    omega
  rw [List.countP_append, List.countP_append, List.countP_cons, List.countP_cons,
    List.countP_nil, hl1, hl2, hcur', hnv]
  simp

theorem map_ver_after_create {α β : Type} (ver : α → β) {versions : List α}
    {cur : α} {stat : α → String} {tail : List α} (cur' nv : α)
    (hfil : versions.filter (fun v => stat v == "backlog") = cur :: tail)
    (hver : ver cur' = ver cur) :
    ((replaceFirst (fun v => stat v == "backlog") cur' versions ++ [nv]).map ver) =
      versions.map ver ++ [ver nv] := by
  obtain ⟨l1, l2, rfl, h1, hpcur, -⟩ := filter_eq_cons_decomp hfil
  rw [replaceFirst_append_cons _ h1 hpcur]
  simp [hver]

theorem maxVer_succ_not_mem {α : Type} (ver : α → Nat) (l : List α) :
    maxVer ver l + 1 ∉ l.map ver := by
  intro hmem
  obtain ⟨x, hx, hveq⟩ := List.mem_map.mp hmem
  have := le_maxVer ver hx
  omega

theorem nodup_concat' {l : List Nat} {y : Nat} (h : l.Nodup) (hy : y ∉ l) :
    (l ++ [y]).Nodup := by
  simp [List.nodup_append, h, hy]

/-- After a `set_*_version_status` / `set_*_approved` replacement of the
targeted version: the backlog count stays at most one and the version
numbers are untouched.  The three cases of `hcase`: the new status is not
backlog; the replacement keeps the status unchanged; or the new status is
backlog and the operation's single-backlog check passed. -/
theorem count_nodup_after_set {α : Type} [DecidableEq α] (stat : α → String)
    (ver : α → Nat) {versions : List α} {v : α} {n : Nat} (v' : α)
    (hmem : v ∈ versions) (hvn : ver v = n) (hver' : ver v' = ver v)
    (hcount : versions.countP (fun w => stat w == "backlog") ≤ 1)
    (hnodup : (versions.map ver).Nodup)
    (hcase : ((stat v' == "backlog") = false) ∨
      ((stat v' == "backlog") = (stat v == "backlog")) ∨
      (((stat v' == "backlog") = true) ∧
        versions.filter (fun w => stat w == "backlog" && ver w != n) = [])) :
    (replaceFirst (fun w => w == v) v' versions).countP
        (fun w => stat w == "backlog") ≤ 1 ∧
      ((replaceFirst (fun w => w == v) v' versions).map ver).Nodup := by
  obtain ⟨l1, x', l2, heq, hx', h1⟩ :=
    exists_first_decomp (p := fun w => w == v) hmem (by simp)
  have hxv : x' = v := by simpa using hx'
  rw [hxv] at heq
  subst heq
  rw [replaceFirst_append_cons _ h1 (by simp)]
  constructor
  · rw [List.countP_append, List.countP_cons] at hcount ⊢
    rcases hcase with hterm | hsame | ⟨hb, hfl⟩
    · rw [hterm]
      rw [if_neg (by simp)]
      omega
    · rw [hsame]
      omega
    · rw [hb]
      have hall := List.filter_eq_nil_iff.mp hfl
      have hmap : (l1.map ver ++ ver v :: l2.map ver).Nodup := by simpa using hnodup
      have hnotin := (List.nodup_cons.mp (List.nodup_middle.mp hmap)).1
      have hc1 : l1.countP (fun w => stat w == "backlog") = 0 := by
        rw [List.countP_eq_zero]
        intro w hw
        intro hpw
        have hwn := hall w (List.mem_append_left _ hw)
        simp only [Bool.and_eq_true, bne_iff_ne, ne_eq, not_and, hpw,
          forall_const, not_not] at hwn
        exact hnotin (by
          rw [List.mem_append]
          exact Or.inl (List.mem_map.mpr ⟨w, hw, by rw [hwn, ← hvn]⟩))
      have hc2 : l2.countP (fun w => stat w == "backlog") = 0 := by
        rw [List.countP_eq_zero]
        intro w hw
        intro hpw
        have hwn := hall w (by
          rw [List.mem_append]
          exact Or.inr (List.mem_cons_of_mem _ hw))
        simp only [Bool.and_eq_true, bne_iff_ne, ne_eq, not_and, hpw,
          forall_const, not_not] at hwn
        exact hnotin (by
          rw [List.mem_append]
          exact Or.inr (List.mem_map.mpr ⟨w, hw, by rw [hwn, ← hvn]⟩))
      rw [hc1, hc2, if_pos rfl]
  · have hmapeq : ((l1 ++ v' :: l2).map ver) = ((l1 ++ v :: l2).map ver) := by
      simp [hver']
    rw [hmapeq]
    exact hnodup

/-- After `deprecate_*`: no version is in backlog, numbers untouched. -/
theorem count_map_zero {α : Type} (p : α → Bool) (g : α → α) (l : List α)
    (h : ∀ v, p (g v) = false) : (l.map g).countP p = 0 := by
  rw [List.countP_eq_zero]
  intro a ha
  obtain ⟨x, -, rfl⟩ := List.mem_map.mp ha
  simp [h x]

theorem nodup_map_ver {α : Type} (ver : α → Nat) (g : α → α) (l : List α)
    (hg : ∀ v, ver (g v) = ver v) (h : (l.map ver).Nodup) :
    ((l.map g).map ver).Nodup := by
  rw [List.map_map]
  have : ver ∘ g = ver := funext hg
  rw [this]
  exact h

theorem BacklogInv_of_es {s s' : Store} (h : BacklogInv s)
    (he : s'.epics = s.epics) (hs : s'.stories = s.stories) : BacklogInv s' :=
  ⟨by rw [he]; exact h.epic, by rw [hs]; exact h.story⟩

theorem supersededEpicVersion_not_backlog (v : EpicVersion) (ts : String) :
    ((supersededEpicVersion v ts).status == "backlog") = false := by
  unfold supersededEpicVersion
  by_cases hv : v.approved <;> simp [hv]

theorem supersededStoryVersion_not_backlog (v : StoryVersion) (ts : String) :
    ((supersededStoryVersion v ts).status == "backlog") = false := by
  unfold supersededStoryVersion
  by_cases hv : v.approved <;> simp [hv]

theorem add_epic_binv (p : AddEpicPayload) (ts : String) (s : Store)
    (h : BacklogInv s) : BacklogInv (add_epic p ts s).2 := by
  rcases add_epic_shape p ts s with heq | ⟨hst, rec, v1, hrecv, hv1s, hv1n, hep⟩
  · rw [heq]; exact h
  · refine ⟨?_, by rw [hst]; exact h.story⟩
    rw [hep]
    intro e he
    rcases List.mem_append.mp he with he2 | he2
    · exact h.epic e he2
    · have he3 : e = rec := by simpa using he2
      subst he3
      rw [hrecv]
      exact ⟨by simp [hv1s], by simp⟩

theorem create_epic_version_binv (p : CreateEpicVersionPayload) (ts : String)
    (s : Store) (h : BacklogInv s) : BacklogInv (create_epic_version p ts s).2 := by
  rcases create_epic_version_shape p ts s with heq |
    ⟨hst, eid, rr, sm, epic, cur, tail, hfind, hfil, hep⟩
  · rw [heq]; exact h
  · refine ⟨?_, by rw [hst]; exact h.story⟩
    rw [hep]
    intro e he
    rcases mem_replaceFirst he with rfl | he2
    · have hepic := h.epic epic (find_record_mem hfind)
      constructor
      · exact count_le_one_after_create EpicVersion.status
          (supersededEpicVersion cur ts)
          (newEpicVersion p rr sm ts (maxVer EpicVersion.version epic.versions + 1) cur)
          hfil (supersededEpicVersion_not_backlog cur ts) rfl hepic.1
      · show ((replaceFirst _ _ epic.versions ++ [_]).map _).Nodup
        rw [map_ver_after_create EpicVersion.version
          (supersededEpicVersion cur ts)
          (newEpicVersion p rr sm ts (maxVer EpicVersion.version epic.versions + 1) cur)
          hfil rfl]
        exact nodup_concat' hepic.2
          (maxVer_succ_not_mem EpicVersion.version epic.versions)
    · exact h.epic e he2

theorem set_epic_version_status_binv (p : SetEpicVersionStatusPayload)
    (ts : String) (s : Store) (h : BacklogInv s) :
    BacklogInv (set_epic_version_status p ts s).2 := by
  rcases set_epic_version_status_shape p ts s with heq |
    ⟨hst, eid, ns, epic, n, v, hfind, hres, hterm, hvalid, hgate, hep⟩
  · rw [heq]; exact h
  · refine ⟨?_, by rw [hst]; exact h.story⟩
    rw [hep]
    intro e he
    rcases mem_replaceFirst he with rfl | he2
    · have hepic := h.epic epic (find_record_mem hfind)
      obtain ⟨hmem, hvn⟩ := resolveEpicTarget_mem hres
      refine count_nodup_after_set EpicVersion.status EpicVersion.version
        { v with status := ns, updated_at := ts } hmem hvn rfl hepic.1 hepic.2 ?_
      by_cases hb : ns = "backlog"
      · refine Or.inr (Or.inr ⟨by simp [hb], ?_⟩)
        by_contra hne
        exact hgate ⟨hb, hne⟩
      · exact Or.inl (beq_eq_false_iff_ne.mpr hb)
    · exact h.epic e he2

theorem set_epic_approved_binv (p : SetEpicApprovedPayload) (ts : String)
    (s : Store) (h : BacklogInv s) : BacklogInv (set_epic_approved p ts s).2 := by
  rcases set_epic_approved_shape p ts s with heq |
    ⟨hst, eid, approved, epic, n, v, hfind, hres, hep⟩
  · rw [heq]; exact h
  · refine ⟨?_, by rw [hst]; exact h.story⟩
    rw [hep]
    intro e he
    rcases mem_replaceFirst he with rfl | he2
    · have hepic := h.epic epic (find_record_mem hfind)
      obtain ⟨hmem, hvn⟩ := resolveEpicTarget_mem hres
      exact count_nodup_after_set EpicVersion.status EpicVersion.version
        { v with approved := approved, updated_at := ts } hmem hvn rfl
        hepic.1 hepic.2 (Or.inr (Or.inl rfl))
    · exact h.epic e he2

theorem deprecate_epic_binv (p : EpicIdPayload) (ts : String) (s : Store)
    (h : BacklogInv s) : BacklogInv (deprecate_epic p ts s).2 := by
  rcases deprecate_epic_shape p ts s with heq | ⟨hst, eid, epic, hfind, hep⟩
  · rw [heq]; exact h
  · refine ⟨?_, by rw [hst]; exact h.story⟩
    rw [hep]
    intro e he
    rcases mem_replaceFirst he with rfl | he2
    · have hepic := h.epic epic (find_record_mem hfind)
      constructor
      · rw [count_map_zero _ _ _ ?_]
        · omega
        · intro w
          by_cases hw : (w.status == "backlog") = true <;> simp [hw]
      · exact nodup_map_ver EpicVersion.version _ epic.versions
          (by intro w; by_cases hw : (w.status == "backlog") = true <;> simp [hw])
          hepic.2
    · exact h.epic e he2

theorem add_story_binv (p : AddStoryPayload) (ts : String) (s : Store)
    (h : BacklogInv s) : BacklogInv (add_story p ts s).2 := by
  rcases add_story_shape p ts s with heq | ⟨hepx, rec, v1, hrecv, hv1s, hv1n, hstx⟩
  · rw [heq]; exact h
  · refine ⟨by rw [hepx]; exact h.epic, ?_⟩
    rw [hstx]
    intro st hst
    rcases List.mem_append.mp hst with he2 | he2
    · exact h.story st he2
    · have he3 : st = rec := by simpa using he2
      subst he3
      rw [hrecv]
      exact ⟨by simp [hv1s], by simp⟩

theorem create_story_version_binv (p : CreateStoryVersionPayload) (ts : String)
    (s : Store) (h : BacklogInv s) : BacklogInv (create_story_version p ts s).2 := by
  rcases create_story_version_shape p ts s with heq |
    ⟨hepx, sid, rr, ds, st, cur, tail, hfind, hfil, hstx⟩
  · rw [heq]; exact h
  · refine ⟨by rw [hepx]; exact h.epic, ?_⟩
    rw [hstx]
    intro x hx
    rcases mem_replaceFirst hx with rfl | he2
    · have hstory := h.story st (find_record_mem hfind)
      constructor
      · exact count_le_one_after_create StoryVersion.status
          (supersededStoryVersion cur ts)
          (newStoryVersion p rr ds ts (maxVer StoryVersion.version st.versions + 1) cur)
          hfil (supersededStoryVersion_not_backlog cur ts) rfl hstory.1
      · show ((replaceFirst _ _ st.versions ++ [_]).map _).Nodup
        rw [map_ver_after_create StoryVersion.version
          (supersededStoryVersion cur ts)
          (newStoryVersion p rr ds ts (maxVer StoryVersion.version st.versions + 1) cur)
          hfil rfl]
        exact nodup_concat' hstory.2
          (maxVer_succ_not_mem StoryVersion.version st.versions)
    · exact h.story x he2

theorem set_story_status_binv (p : SetStoryStatusPayload) (ts : String)
    (s : Store) (h : BacklogInv s) : BacklogInv (set_story_status p ts s).2 := by
  rcases set_story_status_shape p ts s with heq |
    ⟨hepx, sid, ns, st, n, v, hfind, hres, hterm, hvalid, hgate, hstx⟩
  · rw [heq]; exact h
  · refine ⟨by rw [hepx]; exact h.epic, ?_⟩
    rw [hstx]
    intro x hx
    rcases mem_replaceFirst hx with rfl | he2
    · have hstory := h.story st (find_record_mem hfind)
      obtain ⟨hmem, hvn⟩ := resolveStoryTarget_mem hres
      refine count_nodup_after_set StoryVersion.status StoryVersion.version
        { v with status := ns, updated_at := ts } hmem hvn rfl hstory.1 hstory.2 ?_
      by_cases hb : ns = "backlog"
      · refine Or.inr (Or.inr ⟨by simp [hb], ?_⟩)
        by_contra hne
        exact hgate ⟨hb, hne⟩
      · exact Or.inl (beq_eq_false_iff_ne.mpr hb)
    · exact h.story x he2

theorem set_story_approved_binv (p : SetStoryApprovedPayload) (ts : String)
    (s : Store) (h : BacklogInv s) : BacklogInv (set_story_approved p ts s).2 := by
  rcases set_story_approved_shape p ts s with heq |
    ⟨hepx, sid, approved, st, n, v, hfind, hres, hstx⟩
  · rw [heq]; exact h
  · refine ⟨by rw [hepx]; exact h.epic, ?_⟩
    rw [hstx]
    intro x hx
    rcases mem_replaceFirst hx with rfl | he2
    · have hstory := h.story st (find_record_mem hfind)
      obtain ⟨hmem, hvn⟩ := resolveStoryTarget_mem hres
      exact count_nodup_after_set StoryVersion.status StoryVersion.version
        { v with approved := approved, updated_at := ts } hmem hvn rfl
        hstory.1 hstory.2 (Or.inr (Or.inl rfl))
    · exact h.story x he2

theorem deprecate_story_binv (p : StoryIdPayload) (ts : String) (s : Store)
    (h : BacklogInv s) : BacklogInv (deprecate_story p ts s).2 := by
  rcases deprecate_story_shape p ts s with heq | ⟨hepx, sid, st, hfind, hstx⟩
  · rw [heq]; exact h
  · refine ⟨by rw [hepx]; exact h.epic, ?_⟩
    rw [hstx]
    intro x hx
    rcases mem_replaceFirst hx with rfl | he2
    · have hstory := h.story st (find_record_mem hfind)
      constructor
      · rw [count_map_zero _ _ _ ?_]
        · omega
        · intro w
          by_cases hw : (w.status == "backlog") = true <;> simp [hw]
      · exact nodup_map_ver StoryVersion.version _ st.versions
          (by intro w; by_cases hw : (w.status == "backlog") = true <;> simp [hw])
          hstory.2
    · exact h.story x he2

theorem applyOp_binv (op : Op) (ts : String) (s : Store) (h : BacklogInv s) :
    BacklogInv (applyOp op ts s).2 := by
  cases op with
  | createRelease p =>
    exact BacklogInv_of_es h (create_release_es p ts s).1 (create_release_es p ts s).2
  | setReleaseStatus p =>
    exact BacklogInv_of_es h (set_release_status_es p ts s).1 (set_release_status_es p ts s).2
  | addDomainEntry p =>
    exact BacklogInv_of_es h (add_domain_entry_es p ts s).1 (add_domain_entry_es p ts s).2
  | updateDomainEntry p =>
    exact BacklogInv_of_es h (update_domain_entry_es p ts s).1 (update_domain_entry_es p ts s).2
  | activateDomainEntry p =>
    exact BacklogInv_of_es h (activate_domain_entry_es p ts s).1 (activate_domain_entry_es p ts s).2
  | deprecateDomainEntry p =>
    exact BacklogInv_of_es h (deprecate_domain_entry_es p ts s).1 (deprecate_domain_entry_es p ts s).2
  | addRequirement p =>
    exact BacklogInv_of_es h (add_requirement_es p ts s).1 (add_requirement_es p ts s).2
  | updateRequirement p =>
    exact BacklogInv_of_es h (update_requirement_es p ts s).1 (update_requirement_es p ts s).2
  | deprecateRequirement p =>
    exact BacklogInv_of_es h (deprecate_requirement_es p ts s).1 (deprecate_requirement_es p ts s).2
  | supersedeRequirement p =>
    exact BacklogInv_of_es h (supersede_requirement_es p ts s).1 (supersede_requirement_es p ts s).2
  | addFeature p =>
    exact BacklogInv_of_es h (add_feature_es p ts s).1 (add_feature_es p ts s).2
  | updateFeature p =>
    exact BacklogInv_of_es h (update_feature_es p ts s).1 (update_feature_es p ts s).2
  | deprecateFeature p =>
    exact BacklogInv_of_es h (deprecate_feature_es p ts s).1 (deprecate_feature_es p ts s).2
  | addEpic p => exact add_epic_binv p ts s h
  | createEpicVersion p => exact create_epic_version_binv p ts s h
  | setEpicVersionStatus p => exact set_epic_version_status_binv p ts s h
  | setEpicApproved p => exact set_epic_approved_binv p ts s h
  | deprecateEpic p => exact deprecate_epic_binv p ts s h
  | addStory p => exact add_story_binv p ts s h
  | createStoryVersion p => exact create_story_version_binv p ts s h
  | setStoryStatus p => exact set_story_status_binv p ts s h
  | setStoryApproved p => exact set_story_approved_binv p ts s h
  | deprecateStory p => exact deprecate_story_binv p ts s h

/-- Two versions sharing the number 1, one with a status outside the
`backlog`/`released`/`discarded` vocabulary — reachable only by hand-editing
the file, but within the letter of claim C2. -/
def c2va : EpicVersion :=
  { version := 1, status := "draft", approved := false, release_ref := none,
    summary := "a", assumptions := [], constraints := [], requirement_refs := [],
    artifact_refs := [], supersedes := none, created_at := "t0",
    updated_at := "t0", owner := "", notes := "" }

def c2vb : EpicVersion :=
  { version := 1, status := "backlog", approved := false, release_ref := none,
    summary := "b", assumptions := [], constraints := [], requirement_refs := [],
    artifact_refs := [], supersedes := none, created_at := "t0",
    updated_at := "t0", owner := "", notes := "" }

def c2epic : Epic :=
  { id := "EPIC-001", title := "E", status := "active", feature_ref := "FEAT-001",
    tags := [], owner := "", created_at := "t0", versions := [c2va, c2vb] }

def c2store : Store :=
  { releases := [], artifacts := [], requirements := [], features := [],
    epics := [c2epic], stories := [] }

/-- Counterexample to claim C2 as stated: before the operation exactly one
version of `EPIC-001` is in `backlog`, yet
`set_epic_version_status(version=1, status=backlog)` succeeds and leaves two
backlog versions.  The single-backlog check excludes versions by *number*
(`v["version"] != version_num`), so with duplicate version numbers the
existing backlog version (also numbered 1) is never counted, and the
targeted non-terminal `"draft"` version passes the terminal-status guard. -/
theorem claim2_counterexample :
    c2epic.versions.countP (fun v => v.status == "backlog") ≤ 1 ∧
    (set_epic_version_status ⟨some "EPIC-001", some "backlog", some 1⟩ "t1"
        c2store).1.isErr = false ∧
    ((set_epic_version_status ⟨some "EPIC-001", some "backlog", some 1⟩ "t1"
        c2store).2.epics.map
      (fun e => e.versions.countP (fun v => v.status == "backlog"))) = [2] := by
  refine ⟨by decide, by decide, by decide⟩

/-- Claim C2 as amended: for every epic and story whose `versions[]` carries
at most one backlog entry **and pairwise-distinct version numbers** (the
monotonic-lineage invariant guarantees the latter), every successful mutation
operation — add, create-version, set-version-status, set-approved, deprecate,
and all the other operations of the dispatcher — preserves both properties. -/
theorem claim2_single_backlog_preserved (op : Op) (ts : String) (s : Store)
    (h : BacklogInv s) : BacklogInv (applyOp op ts s).2 :=
  applyOp_binv op ts s h

/-- Witness for the amended C2: creating a new epic version on the sample
store keeps the single-backlog property. -/
theorem claim2_single_backlog_preserved_witness :
    BacklogInv (applyOp (Op.createEpicVersion c1pe) "t1" c1store).2 :=
  claim2_single_backlog_preserved (Op.createEpicVersion c1pe) "t1" c1store
    ⟨by decide, by decide⟩

/-! ## Claim C3: monotonic version lineage -/

/-- The version numbers of every epic and story are exactly `1, 2, ..., N` in
array order (which a fortiori is what sorting by `version` yields). -/
structure LineageInv (s : Store) : Prop where
  epic : ∀ e ∈ s.epics,
    e.versions.map (fun v => v.version) = List.range' 1 e.versions.length
  story : ∀ st ∈ s.stories,
    st.versions.map (fun v => v.version) = List.range' 1 st.versions.length

theorem LineageInv_of_es {s s' : Store} (h : LineageInv s)
    (he : s'.epics = s.epics) (hs : s'.stories = s.stories) : LineageInv s' :=
  ⟨by rw [he]; exact h.epic, by rw [hs]; exact h.story⟩

theorem foldl_max_range' : ∀ n : Nat,
    (List.range' 1 n).foldl (fun m k => max m k) 0 = n := by
  intro n
  induction n with
  | zero => rfl
  | succ m ih =>
    rw [List.range'_concat, List.foldl_append, ih]
    simp [Nat.max_def]
    omega

theorem maxVer_eq_foldl_map {α : Type} (ver : α → Nat) (l : List α) :
    maxVer ver l = (l.map ver).foldl (fun m k => max m k) 0 := by
  unfold maxVer
  rw [List.foldl_map]

theorem maxVer_of_range' {α : Type} (ver : α → Nat) {l : List α}
    (h : l.map ver = List.range' 1 l.length) : maxVer ver l = l.length := by
  rw [maxVer_eq_foldl_map, h, foldl_max_range']

theorem replaceFirst_length {α : Type} (p : α → Bool) (new : α) :
    ∀ l : List α, (replaceFirst p new l).length = l.length := by
  intro l
  induction l with
  | nil => rfl
  | cons x xs ih =>
    simp only [replaceFirst]
    by_cases hp : p x = true
    · rw [if_pos hp]
      simp
    · rw [if_neg hp]
      simp [ih]

theorem range'_concat_succ (n : Nat) :
    List.range' 1 n ++ [n + 1] = List.range' 1 (n + 1) := by
  rw [List.range'_concat]
  simp [Nat.add_comm]

/-- `create_*_version` extends a `1..N` lineage to `1..N+1`. -/
theorem lineage_after_create {α : Type} (stat : α → String) (ver : α → Nat)
    {versions : List α} {cur : α} {tail : List α} (cur' nv : α)
    (hfil : versions.filter (fun v => stat v == "backlog") = cur :: tail)
    (hver : ver cur' = ver cur) (hnv : ver nv = maxVer ver versions + 1)
    (h : versions.map ver = List.range' 1 versions.length) :
    (replaceFirst (fun v => stat v == "backlog") cur' versions ++ [nv]).map ver =
      List.range' 1 (replaceFirst (fun v => stat v == "backlog") cur' versions
        ++ [nv]).length := by
  rw [map_ver_after_create ver cur' nv hfil hver, h, hnv, maxVer_of_range' ver h]
  rw [List.length_append, replaceFirst_length]
  simp [range'_concat_succ]

theorem lineage_after_set {α : Type} [DecidableEq α] (ver : α → Nat)
    {versions : List α} {v : α} (v' : α) (hver' : ver v' = ver v)
    (h : versions.map ver = List.range' 1 versions.length) :
    (replaceFirst (fun w => w == v) v' versions).map ver =
      List.range' 1 (replaceFirst (fun w => w == v) v' versions).length := by
  rw [map_replaceFirst_eq ver _ _ _ (by
    intro x hx hpx
    rw [eq_of_beq hpx]
    exact hver'), replaceFirst_length]
  exact h

theorem lineage_after_map {α : Type} (ver : α → Nat) (g : α → α)
    {versions : List α} (hg : ∀ x, ver (g x) = ver x)
    (h : versions.map ver = List.range' 1 versions.length) :
    (versions.map g).map ver = List.range' 1 (versions.map g).length := by
  rw [List.map_map, show ver ∘ g = ver from funext hg, List.length_map]
  exact h

theorem add_epic_linv (p : AddEpicPayload) (ts : String) (s : Store)
    (h : LineageInv s) : LineageInv (add_epic p ts s).2 := by
  rcases add_epic_shape p ts s with heq | ⟨hst, rec, v1, hrecv, hv1s, hv1n, hep⟩
  · rw [heq]; exact h
  · refine ⟨?_, by rw [hst]; exact h.story⟩
    rw [hep]
    intro e he
    rcases List.mem_append.mp he with he2 | he2
    · exact h.epic e he2
    · have he3 : e = rec := by simpa using he2
      subst he3
      rw [hrecv]
      simp [hv1n, List.range']

theorem create_epic_version_linv (p : CreateEpicVersionPayload) (ts : String)
    (s : Store) (h : LineageInv s) : LineageInv (create_epic_version p ts s).2 := by
  rcases create_epic_version_shape p ts s with heq |
    ⟨hst, eid, rr, sm, epic, cur, tail, hfind, hfil, hep⟩
  · rw [heq]; exact h
  · refine ⟨?_, by rw [hst]; exact h.story⟩
    rw [hep]
    intro e he
    rcases mem_replaceFirst he with rfl | he2
    · exact lineage_after_create EpicVersion.status EpicVersion.version
        (supersededEpicVersion cur ts)
        (newEpicVersion p rr sm ts (maxVer EpicVersion.version epic.versions + 1) cur)
        hfil rfl rfl (h.epic epic (find_record_mem hfind))
    · exact h.epic e he2

theorem set_epic_version_status_linv (p : SetEpicVersionStatusPayload)
    (ts : String) (s : Store) (h : LineageInv s) :
    LineageInv (set_epic_version_status p ts s).2 := by
  rcases set_epic_version_status_shape p ts s with heq |
    ⟨hst, eid, ns, epic, n, v, hfind, hres, hterm, hvalid, hgate, hep⟩
  · rw [heq]; exact h
  · refine ⟨?_, by rw [hst]; exact h.story⟩
    rw [hep]
    intro e he
    rcases mem_replaceFirst he with rfl | he2
    · exact lineage_after_set EpicVersion.version
        { v with status := ns, updated_at := ts } rfl
        (h.epic epic (find_record_mem hfind))
    · exact h.epic e he2

theorem set_epic_approved_linv (p : SetEpicApprovedPayload) (ts : String)
    (s : Store) (h : LineageInv s) : LineageInv (set_epic_approved p ts s).2 := by
  rcases set_epic_approved_shape p ts s with heq |
    ⟨hst, eid, approved, epic, n, v, hfind, hres, hep⟩
  · rw [heq]; exact h
  · refine ⟨?_, by rw [hst]; exact h.story⟩
    rw [hep]
    intro e he
    rcases mem_replaceFirst he with rfl | he2
    · exact lineage_after_set EpicVersion.version
        { v with approved := approved, updated_at := ts } rfl
        (h.epic epic (find_record_mem hfind))
    · exact h.epic e he2

theorem deprecate_epic_linv (p : EpicIdPayload) (ts : String) (s : Store)
    (h : LineageInv s) : LineageInv (deprecate_epic p ts s).2 := by
  rcases deprecate_epic_shape p ts s with heq | ⟨hst, eid, epic, hfind, hep⟩
  · rw [heq]; exact h
  · refine ⟨?_, by rw [hst]; exact h.story⟩
    rw [hep]
    intro e he
    rcases mem_replaceFirst he with rfl | he2
    · exact lineage_after_map EpicVersion.version _
        (by intro w; by_cases hw : (w.status == "backlog") = true <;> simp [hw])
        (h.epic epic (find_record_mem hfind))
    · exact h.epic e he2

theorem add_story_linv (p : AddStoryPayload) (ts : String) (s : Store)
    (h : LineageInv s) : LineageInv (add_story p ts s).2 := by
  rcases add_story_shape p ts s with heq | ⟨hepx, rec, v1, hrecv, hv1s, hv1n, hstx⟩
  · rw [heq]; exact h
  · refine ⟨by rw [hepx]; exact h.epic, ?_⟩
    rw [hstx]
    intro st hst
    rcases List.mem_append.mp hst with he2 | he2
    · exact h.story st he2
    · have he3 : st = rec := by simpa using he2
      subst he3
      rw [hrecv]
      simp [hv1n, List.range']

theorem create_story_version_linv (p : CreateStoryVersionPayload) (ts : String)
    (s : Store) (h : LineageInv s) : LineageInv (create_story_version p ts s).2 := by
  rcases create_story_version_shape p ts s with heq |
    ⟨hepx, sid, rr, ds, st, cur, tail, hfind, hfil, hstx⟩
  · rw [heq]; exact h
  · refine ⟨by rw [hepx]; exact h.epic, ?_⟩
    rw [hstx]
    intro x hx
    rcases mem_replaceFirst hx with rfl | he2
    · exact lineage_after_create StoryVersion.status StoryVersion.version
        (supersededStoryVersion cur ts)
        (newStoryVersion p rr ds ts (maxVer StoryVersion.version st.versions + 1) cur)
        hfil rfl rfl (h.story st (find_record_mem hfind))
    · exact h.story x he2

theorem set_story_status_linv (p : SetStoryStatusPayload) (ts : String)
    (s : Store) (h : LineageInv s) : LineageInv (set_story_status p ts s).2 := by
  rcases set_story_status_shape p ts s with heq |
    ⟨hepx, sid, ns, st, n, v, hfind, hres, hterm, hvalid, hgate, hstx⟩
  · rw [heq]; exact h
  · refine ⟨by rw [hepx]; exact h.epic, ?_⟩
    rw [hstx]
    intro x hx
    rcases mem_replaceFirst hx with rfl | he2
    · exact lineage_after_set StoryVersion.version
        { v with status := ns, updated_at := ts } rfl
        (h.story st (find_record_mem hfind))
    · exact h.story x he2

theorem set_story_approved_linv (p : SetStoryApprovedPayload) (ts : String)
    (s : Store) (h : LineageInv s) : LineageInv (set_story_approved p ts s).2 := by
  rcases set_story_approved_shape p ts s with heq |
    ⟨hepx, sid, approved, st, n, v, hfind, hres, hstx⟩
  · rw [heq]; exact h
  · refine ⟨by rw [hepx]; exact h.epic, ?_⟩
    rw [hstx]
    intro x hx
    rcases mem_replaceFirst hx with rfl | he2
    · exact lineage_after_set StoryVersion.version
        { v with approved := approved, updated_at := ts } rfl
        (h.story st (find_record_mem hfind))
    · exact h.story x he2

theorem deprecate_story_linv (p : StoryIdPayload) (ts : String) (s : Store)
    (h : LineageInv s) : LineageInv (deprecate_story p ts s).2 := by
  rcases deprecate_story_shape p ts s with heq | ⟨hepx, sid, st, hfind, hstx⟩
  · rw [heq]; exact h
  · refine ⟨by rw [hepx]; exact h.epic, ?_⟩
    rw [hstx]
    intro x hx
    rcases mem_replaceFirst hx with rfl | he2
    · exact lineage_after_map StoryVersion.version _
        (by intro w; by_cases hw : (w.status == "backlog") = true <;> simp [hw])
        (h.story st (find_record_mem hfind))
    · exact h.story x he2

theorem applyOp_linv (op : Op) (ts : String) (s : Store) (h : LineageInv s) :
    LineageInv (applyOp op ts s).2 := by
  cases op with
  | createRelease p =>
    exact LineageInv_of_es h (create_release_es p ts s).1 (create_release_es p ts s).2
  | setReleaseStatus p =>
    exact LineageInv_of_es h (set_release_status_es p ts s).1 (set_release_status_es p ts s).2
  | addDomainEntry p =>
    exact LineageInv_of_es h (add_domain_entry_es p ts s).1 (add_domain_entry_es p ts s).2
  | updateDomainEntry p =>
    exact LineageInv_of_es h (update_domain_entry_es p ts s).1 (update_domain_entry_es p ts s).2
  | activateDomainEntry p =>
    exact LineageInv_of_es h (activate_domain_entry_es p ts s).1 (activate_domain_entry_es p ts s).2
  | deprecateDomainEntry p =>
    exact LineageInv_of_es h (deprecate_domain_entry_es p ts s).1 (deprecate_domain_entry_es p ts s).2
  | addRequirement p =>
    exact LineageInv_of_es h (add_requirement_es p ts s).1 (add_requirement_es p ts s).2
  | updateRequirement p =>
    exact LineageInv_of_es h (update_requirement_es p ts s).1 (update_requirement_es p ts s).2
  | deprecateRequirement p =>
    exact LineageInv_of_es h (deprecate_requirement_es p ts s).1 (deprecate_requirement_es p ts s).2
  | supersedeRequirement p =>
    exact LineageInv_of_es h (supersede_requirement_es p ts s).1 (supersede_requirement_es p ts s).2
  | addFeature p =>
    exact LineageInv_of_es h (add_feature_es p ts s).1 (add_feature_es p ts s).2
  | updateFeature p =>
    exact LineageInv_of_es h (update_feature_es p ts s).1 (update_feature_es p ts s).2
  | deprecateFeature p =>
    exact LineageInv_of_es h (deprecate_feature_es p ts s).1 (deprecate_feature_es p ts s).2
  | addEpic p => exact add_epic_linv p ts s h
  | createEpicVersion p => exact create_epic_version_linv p ts s h
  | setEpicVersionStatus p => exact set_epic_version_status_linv p ts s h
  | setEpicApproved p => exact set_epic_approved_linv p ts s h
  | deprecateEpic p => exact deprecate_epic_linv p ts s h
  | addStory p => exact add_story_linv p ts s h
  | createStoryVersion p => exact create_story_version_linv p ts s h
  | setStoryStatus p => exact set_story_status_linv p ts s h
  | setStoryApproved p => exact set_story_approved_linv p ts s h
  | deprecateStory p => exact deprecate_story_linv p ts s h

/-- Claim C3: starting from any store satisfying the lineage invariant (in
particular one whose epics and stories were created by `add_epic` /
`add_story`, which start at version 1), every sequence of successful
operations — including the version-creating ones, which append
`max(existing)+1` — leaves every epic's and story's `versions[]` numbered
exactly `1, 2, ..., N` in order, with no gaps and no repeats; sorting by
`version` therefore yields that same sequence. -/
theorem claim3_version_lineage (ops : List (Op × String)) (s : Store)
    (h : LineageInv s) : LineageInv (applyOps ops s) := by
  induction ops generalizing s with
  | nil => exact h
  | cons o rest ih => exact ih _ (applyOp_linv o.1 o.2 s h)

/-- Witness for C3: the empty store trivially satisfies the invariant, and
after adding an epic and creating a second version the lineage is still
`1..N`. -/
theorem claim3_version_lineage_witness :
    LineageInv (applyOps [(Op.createEpicVersion c1pe, "t1"),
      (Op.createStoryVersion c1ps, "t2")] c1store) :=
  claim3_version_lineage _ c1store ⟨by decide, by decide⟩

/-! ## Claim C6: the validator's supersedes back-reference check -/

/-- A version whose `supersedes` points at its own number — not a strictly
lower one — in violation of invariant 8. -/
def c6v : EpicVersion :=
  { version := 1, status := "backlog", approved := false, release_ref := none,
    summary := "s", assumptions := [], constraints := [], requirement_refs := [],
    artifact_refs := [], supersedes := some 1, created_at := "t0",
    updated_at := "t0", owner := "", notes := "" }

def c6epic : Epic :=
  { id := "EPIC-001", title := "E", status := "active", feature_ref := "FEAT-001",
    tags := [], owner := "", created_at := "t0", versions := [c6v] }

/-- Claim C6 fails on the code: `EPIC-001 v1` carries `supersedes = 1`, which
is not a strictly lower version number, yet `validate_epics` reports **no**
error at all.  The check at validate.py lines 263–266 (and identically for
stories at 354–357) is `supersedes not in version_nums and supersedes >=
v_num`: because `1` *is* in `version_nums`, the conjunction is false and the
violation goes unreported (the intended condition is the disjunction). -/
theorem claim6_validator_misses_supersedes_violation :
    (∃ v ∈ c6epic.versions, v.supersedes = some 1 ∧ ¬ (1 < v.version)) ∧
      validate_epics [c6epic] ["FEAT-001"] [] [] [] = [] := by
  refine ⟨⟨c6v, by decide, by decide, by decide⟩, by decide⟩

end APSCA
